import Mathlib

/-!
Shallow embedding of the go-winacl library (audibleblink/go-winacl).

The Go sources embedded here:
- `sid.go` : the `SID` record and its `String` rendering.
- `integrity.go` : integrity levels, policies and `CheckAccess`.
- the access-check engine file (`AccessCheck`, `aceAppliesToToken`,
  `MapGenericAccess`, `TokenUser`, `AccessCheckOptions`,
  `DefaultAccessCheckOptions`, `AccessCheckResult`).
- the ACL codec (`ACLHeader`, `NewACLHeader`, `NewACL`).
- `ntsdheader.go` and the security-descriptor codec
  (`NewNTSDHeader`, `NewNtSecurityDescriptor`).
- the test helpers `NewAccessAllowedACE` / `NewAccessDeniedACE`.

Machine integers (Go `uint32`, `uint16`, `byte`) are modelled as `Nat`;
the only operation where width matters is Go's bitwise complement `^x`
(and the and-not pattern `a & ^x`), modelled by `compl32` / `andNot32`
below, and `uint32` subtraction, modelled with an explicit `% 2^32`.
Fallible Go functions returning `(T, error)` are modelled as
`Except DecodeErr (T × List Nat)` over an explicit byte-list buffer.

The `Details` trace field of `AccessCheckResult` (an append-only list of
human-readable step descriptions, never consulted by any decision) is not
modelled; the `Granted`, `Reason`, `Ace` and `Access` fields are.

The ACE decoder (`NewAce`, `NewACEHeader`, `NewBasicAce`,
`NewAdvancedAce`) is present in the sources, concatenated alongside the
README, and is embedded from that source.  The ACE record type
declarations and the numeric ACE-type-tag and access-mask constants are
not in the provided sources; those are modelled from the spec with the
standard Windows values and are marked `Modelled from the spec:`
individually.
-/

/-- Modelled from the spec: the standard Windows access-mask bit constants
named by the spec (GENERIC_READ/WRITE/EXECUTE/ALL, READ_CONTROL, WRITE_DAC,
WRITE_OWNER, SYNCHRONIZE, DELETE, MAXIMUM_ALLOWED); `ace.go` is missing
from the provided sources. -/
def AccessMaskGenericRead : Nat := 0x80000000

/-- Modelled from the spec: GENERIC_WRITE bit. -/
def AccessMaskGenericWrite : Nat := 0x40000000

/-- Modelled from the spec: GENERIC_EXECUTE bit. -/
def AccessMaskGenericExecute : Nat := 0x20000000

/-- Modelled from the spec: GENERIC_ALL bit. -/
def AccessMaskGenericAll : Nat := 0x10000000

/-- Modelled from the spec: MAXIMUM_ALLOWED bit. -/
def AccessMaskMaximumAllowed : Nat := 0x02000000

/-- Modelled from the spec: SYNCHRONIZE bit. -/
def AccessMaskSynchronize : Nat := 0x00100000

/-- Modelled from the spec: WRITE_OWNER bit. -/
def AccessMaskWriteOwner : Nat := 0x00080000

/-- Modelled from the spec: WRITE_DAC bit. -/
def AccessMaskWriteDACL : Nat := 0x00040000

/-- Modelled from the spec: READ_CONTROL bit. -/
def AccessMaskReadControl : Nat := 0x00020000

/-- Modelled from the spec: DELETE bit. -/
def AccessMaskDelete : Nat := 0x00010000

/-- Modelled from the spec: ACE type tag for a basic access-allowed ACE
(standard Windows value 0x00); `ace.go` is missing from the provided
sources, which enumerate "access-allowed, access-denied, system-audit,
system-alarm, and their object and callback variants". -/
def AceTypeAccessAllowed : Nat := 0x00

/-- Modelled from the spec: basic access-denied ACE type tag. -/
def AceTypeAccessDenied : Nat := 0x01

/-- Modelled from the spec: system-audit ACE type tag. -/
def AceTypeSystemAudit : Nat := 0x02

/-- Modelled from the spec: system-alarm ACE type tag. -/
def AceTypeSystemAlarm : Nat := 0x03

/-- Modelled from the spec: access-allowed object ACE type tag. -/
def AceTypeAccessAllowedObject : Nat := 0x05

/-- Modelled from the spec: access-denied object ACE type tag. -/
def AceTypeAccessDeniedObject : Nat := 0x06

/-- Modelled from the spec: system-audit object ACE type tag. -/
def AceTypeSystemAuditObject : Nat := 0x07

/-- Modelled from the spec: system-alarm object ACE type tag. -/
def AceTypeSystemAlarmObject : Nat := 0x08

/-- Modelled from the spec: access-allowed callback ACE type tag. -/
def AceTypeAccessAllowedCallback : Nat := 0x09

/-- Modelled from the spec: access-denied callback ACE type tag. -/
def AceTypeAccessDeniedCallback : Nat := 0x0A

/-- Modelled from the spec: access-allowed callback object ACE type tag. -/
def AceTypeAccessAllowedCallbackObject : Nat := 0x0B

/-- Modelled from the spec: access-denied callback object ACE type tag. -/
def AceTypeAccessDeniedCallbackObject : Nat := 0x0C

/-- Modelled from the spec: system-audit callback ACE type tag. -/
def AceTypeSystemAuditCallback : Nat := 0x0D

/-- Modelled from the spec: system-alarm callback ACE type tag. -/
def AceTypeSystemAlarmCallback : Nat := 0x0E

/-- Modelled from the spec: system-audit callback object ACE type tag. -/
def AceTypeSystemAuditCallbackObject : Nat := 0x0F

/-- Modelled from the spec: system-alarm callback object ACE type tag. -/
def AceTypeSystemAlarmCallbackObject : Nat := 0x10

/-- Modelled from the spec: advanced-ACE inheritance flag
ACE_OBJECT_TYPE_PRESENT. -/
def ACEInheritanceFlagsObjectTypePresent : Nat := 0x01

/-- Modelled from the spec: advanced-ACE inheritance flag
ACE_INHERITED_OBJECT_TYPE_PRESENT. -/
def ACEInheritanceFlagsInheritedObjectTypePresent : Nat := 0x02

/-- Integrity-level policy bit: PolicyNoWriteUp (integrity.go). -/
def PolicyNoWriteUp : Nat := 0x1

/-- Integrity-level policy bit: PolicyNoReadUp (integrity.go). -/
def PolicyNoReadUp : Nat := 0x2

/-- Integrity-level policy bit: PolicyNoExecuteUp (integrity.go). -/
def PolicyNoExecuteUp : Nat := 0x4

/-- IntegrityLevelUntrusted (integrity.go). -/
def IntegrityLevelUntrusted : Nat := 0x0000

/-- IntegrityLevelLow (integrity.go). -/
def IntegrityLevelLow : Nat := 0x1000

/-- IntegrityLevelMedium (integrity.go). -/
def IntegrityLevelMedium : Nat := 0x2000

/-- IntegrityLevelHigh (integrity.go). -/
def IntegrityLevelHigh : Nat := 0x3000

/-- IntegrityLevelSystem (integrity.go). -/
def IntegrityLevelSystem : Nat := 0x4000

/-- The all-ones 32-bit mask. -/
def mask32 : Nat := 0xFFFFFFFF

/-- Go's `uint32` bitwise complement `^x`, on the `Nat` embedding. -/
def compl32 (x : Nat) : Nat := mask32 ^^^ (x % 0x100000000)

/-- Go's `uint32` and-not pattern `a & ^b`. -/
def andNot32 (a b : Nat) : Nat := a &&& compl32 b

/-- The `SID` record of `sid.go`: revision, sub-authority count, authority
bytes (a slice, hence arbitrary length), sub-authorities. -/
structure SID where
  Revision : Nat
  NumAuthorities : Nat
  Authority : List Nat
  SubAuthorities : List Nat
deriving DecidableEq

/-- `SID.String` of `sid.go` (named `toString` here because `String` is the
Lean string type): empty when fewer than 6 authority bytes, otherwise
`S-<revision>-<Authority[5]>` followed by the first `NumAuthorities`
sub-authorities.  The Go loop indexes `SubAuthorities[i]` for
`i < NumAuthorities` and panics when the slice is shorter; the embedding
reads `0` there, so theorems about well-formed SIDs carry the invariant
`NumAuthorities ≤ SubAuthorities.length`. -/
def SID.toString (s : SID) : String :=
  if s.Authority.length < 6 then ""
  else
    (List.range s.NumAuthorities).foldl
      (fun acc i => acc ++ "-" ++ Nat.repr (s.SubAuthorities.getD i 0))
      ("S-" ++ Nat.repr s.Revision ++ "-" ++ Nat.repr (s.Authority.getD 5 0))

/-- The `GUID` record of `pkg/guid.go` (`Data4` is the 8-byte tail). -/
structure GUID where
  Data1 : Nat
  Data2 : Nat
  Data3 : Nat
  Data4 : List Nat
deriving DecidableEq

/-- Modelled from the spec: the ACE header record (type tag, flags,
declared total record size); the Go field `Type` is renamed `AceType`
because `Type` is a Lean keyword. -/
structure ACEHeader where
  AceType : Nat
  Flags : Nat
  Size : Nat
deriving DecidableEq

/-- Modelled from the spec: the 32-bit ACE access-mask wrapper with its
`Raw` accessor (used by the engine as `ace.AccessMask.Raw()`). -/
structure ACEAccessMask where
  Value : Nat
deriving DecidableEq

/-- `ACEAccessMask.Raw` returns the raw 32-bit value. -/
def ACEAccessMask.Raw (m : ACEAccessMask) : Nat := m.Value

/-- Modelled from the spec: the basic ACE body, carrying only the trailing
principal SID. -/
structure BasicAce where
  SecurityIdentifier : SID
deriving DecidableEq

/-- Modelled from the spec: the advanced (object) ACE body: inheritance
flags, the two conditionally-present GUIDs and the trailing principal. -/
structure AdvancedAce where
  Flags : Nat
  ObjectType : GUID
  InheritedObjectType : GUID
  SecurityIdentifier : SID
deriving DecidableEq

/-- Modelled from the spec: the interface-typed ACE body is a tagged
variant over the basic and advanced record kinds. -/
inductive ObjectAce where
  | basic (b : BasicAce)
  | advanced (a : AdvancedAce)
deriving DecidableEq

/-- Modelled from the spec: the uniform get-principal capability of the
two ACE body variants. -/
def ObjectAce.GetPrincipal : ObjectAce → SID
  | .basic b => b.SecurityIdentifier
  | .advanced a => a.SecurityIdentifier

/-- Modelled from the spec: an ACE is a header, an access mask, and a body
variant. -/
structure ACE where
  Header : ACEHeader
  AccessMask : ACEAccessMask
  ObjectAce : ObjectAce
deriving DecidableEq

/-- The ACL header record (the ACL codec source file). -/
structure ACLHeader where
  Revision : Nat
  Sbz1 : Nat
  Size : Nat
  AceCount : Nat
  Sbz2 : Nat
deriving DecidableEq

/-- The `ACL` record: header plus decoded ACEs. -/
structure ACL where
  Header : ACLHeader
  Aces : List ACE
deriving DecidableEq

/-- The security-descriptor header record (`ntsdheader.go`). -/
structure NtSecurityDescriptorHeader where
  Revision : Nat
  Sbz1 : Nat
  Control : Nat
  OffsetOwner : Nat
  OffsetGroup : Nat
  OffsetSacl : Nat
  OffsetDacl : Nat
deriving DecidableEq

/-- The `NtSecurityDescriptor` record. -/
structure NtSecurityDescriptor where
  Header : NtSecurityDescriptorHeader
  DACL : ACL
  SACL : ACL
  Owner : SID
  Group : SID
deriving DecidableEq

/-- `TokenUser` of the access-check engine source. -/
structure TokenUser where
  UserSID : SID
  Groups : List SID
  Flags : Nat
deriving DecidableEq

/-- `NewTokenUser` of the access-check engine source. -/
def NewTokenUser (userSID : SID) (groups : List SID) : TokenUser :=
  { UserSID := userSID, Groups := groups, Flags := 0 }

/-- `AccessCheckOptions` of the access-check engine source; the Go
`map[uint32]uint32` (which may be nil) is an optional association list. -/
structure AccessCheckOptions where
  IgnoreObjectType : Bool
  CheckIntegrity : Bool
  IntegrityPolicy : Nat
  SubjectIntegrity : Nat
  ObjectIntegrity : Nat
  GenericMapping : Option (List (Nat × Nat))
deriving DecidableEq

/-- `DefaultAccessCheckOptions` of the access-check engine source; the
unset Go fields take their zero values. -/
def DefaultAccessCheckOptions : AccessCheckOptions :=
  { IgnoreObjectType := true
    CheckIntegrity := false
    IntegrityPolicy := PolicyNoWriteUp
    SubjectIntegrity := 0
    ObjectIntegrity := 0
    GenericMapping := some
      [(AccessMaskGenericRead, AccessMaskReadControl),
       (AccessMaskGenericWrite, AccessMaskWriteDACL ||| AccessMaskWriteOwner),
       (AccessMaskGenericExecute, AccessMaskSynchronize),
       (AccessMaskGenericAll, 0xFFFFFFFF)] }

/-- `AccessCheckResult` of the access-check engine source, without the
display-only `Details` trace. The `Ace` pointer is an option. -/
structure AccessCheckResult where
  Granted : Bool
  Reason : String
  Ace : Option ACE
  Access : Nat
deriving DecidableEq

/-- `MapGenericAccess` of the access-check engine source: fold over the
four generic rights, OR-ing mapped bits into the result and clearing the
generic bit when the table has an entry; then OR the remaining bits back
in. The dead final branch (`result == 0 && access != 0`) is kept. -/
def MapGenericAccess (access : Nat) (mapping : Option (List (Nat × Nat))) : Nat :=
  match mapping with
  | none => access
  | some m =>
    let genericRights : List Nat :=
      [AccessMaskGenericRead, AccessMaskGenericWrite,
       AccessMaskGenericExecute, AccessMaskGenericAll]
    let st :=
      genericRights.foldl
        (fun (st : Nat × Nat) genericRight =>
          if st.2 &&& genericRight != 0 then
            match m.lookup genericRight with
            | some specificRights => (st.1 ||| specificRights, andNot32 st.2 genericRight)
            | none => st
          else st)
        (0, access)
    let result := st.1 ||| st.2
    if result == 0 && st.2 != 0 then st.2 else result

/-- `IntegrityLevel.CheckAccess` of `integrity.go` (`il` is the subject
level, the receiver). -/
def CheckAccess (il objectLevel policy requestedAccess : Nat) : Bool :=
  if objectLevel ≤ il then true
  else if (policy &&& PolicyNoWriteUp != 0) &&
      (requestedAccess &&&
        (AccessMaskGenericWrite ||| AccessMaskWriteDACL ||| AccessMaskWriteOwner) != 0) then
    false
  else if (policy &&& PolicyNoReadUp != 0) &&
      (requestedAccess &&& (AccessMaskGenericRead ||| AccessMaskReadControl) != 0) then
    false
  else if (policy &&& PolicyNoExecuteUp != 0) &&
      (requestedAccess &&& AccessMaskGenericExecute != 0) then
    false
  else true

/-- `aceAppliesToToken` of the access-check engine source. Both body
variants yield their principal; the Go `default` branch (an interface
value of an unknown dynamic type) has no counterpart in the two-variant
sum. The Everyone check, the direct user check and the first-matching
group check are in source order. -/
def aceAppliesToToken (ace : ACE) (token : TokenUser)
    (_options : AccessCheckOptions) : Bool × String :=
  let aceSID :=
    match ace.ObjectAce with
    | .basic oa => oa.SecurityIdentifier
    | .advanced oa => oa.SecurityIdentifier
  let aceSIDStr := aceSID.toString
  if aceSIDStr == "S-1-1-0" then (true, "Everyone SID matches all tokens")
  else if aceSIDStr == token.UserSID.toString then (true, "Directly matches user SID")
  else if token.Groups.any (fun group => aceSIDStr == group.toString) then
    (true, "Matches a group SID")
  else (false, "No SID match found")

/-- The first (deny) ACE loop of `AccessCheck`: skips ACEs whose header
type is not `AceTypeAccessDenied`; accumulates denied bits from applicable
deny ACEs; returns `inl (index, ace)` on the early full-denial return. -/
def denyPass (token : TokenUser) (options : AccessCheckOptions) (mappedAccess : Nat) :
    List ACE → Nat → Nat → Sum (Nat × ACE) Nat
  | [], _, deniedAccess => Sum.inr deniedAccess
  | ace :: rest, i, deniedAccess =>
    if ace.Header.AceType != AceTypeAccessDenied then
      denyPass token options mappedAccess rest (i + 1) deniedAccess
    else if (aceAppliesToToken ace token options).1 then
      let aceMappedAccess := MapGenericAccess ace.AccessMask.Raw options.GenericMapping
      if aceMappedAccess &&& mappedAccess != 0 then
        let deniedAccess' := deniedAccess ||| (aceMappedAccess &&& mappedAccess)
        if deniedAccess' == mappedAccess then Sum.inl (i, ace)
        else denyPass token options mappedAccess rest (i + 1) deniedAccess'
      else denyPass token options mappedAccess rest (i + 1) deniedAccess
    else denyPass token options mappedAccess rest (i + 1) deniedAccess

/-- The second (allow) ACE loop of `AccessCheck`: skips ACEs whose header
type is not `AceTypeAccessAllowed`; accumulates granted bits
(`aceMapped & mapped & ^denied`), breaking once granted∪denied covers the
mapped request (the loop index only feeds the unmodelled trace). -/
def allowPass (token : TokenUser) (options : AccessCheckOptions)
    (mappedAccess deniedAccess : Nat) : List ACE → Nat → Nat
  | [], grantedAccess => grantedAccess
  | ace :: rest, grantedAccess =>
    if ace.Header.AceType != AceTypeAccessAllowed then
      allowPass token options mappedAccess deniedAccess rest grantedAccess
    else if (aceAppliesToToken ace token options).1 then
      let aceMappedAccess := MapGenericAccess ace.AccessMask.Raw options.GenericMapping
      let allowedByThisAce := andNot32 (aceMappedAccess &&& mappedAccess) deniedAccess
      if allowedByThisAce != 0 then
        let grantedAccess' := grantedAccess ||| allowedByThisAce
        if (grantedAccess' ||| deniedAccess) == mappedAccess then grantedAccess'
        else allowPass token options mappedAccess deniedAccess rest grantedAccess'
      else allowPass token options mappedAccess deniedAccess rest grantedAccess
    else allowPass token options mappedAccess deniedAccess rest grantedAccess

/-- `AccessCheck` of the access-check engine source: generic mapping,
optional integrity gate, empty-DACL short-circuit, owner implicit rights,
deny pass, allow pass, final decision. -/
def AccessCheck (securityDescriptor : NtSecurityDescriptor) (token : TokenUser)
    (desiredAccess : Nat) (optionsArg : Option AccessCheckOptions) : AccessCheckResult :=
  let options := optionsArg.getD DefaultAccessCheckOptions
  let mappedAccess := MapGenericAccess desiredAccess options.GenericMapping
  if options.CheckIntegrity &&
      !(CheckAccess options.SubjectIntegrity options.ObjectIntegrity
        options.IntegrityPolicy mappedAccess) then
    { Granted := false, Reason := "Access denied by integrity level policy",
      Ace := none, Access := 0 }
  else if securityDescriptor.DACL.Aces.length == 0 then
    { Granted := true, Reason := "No DACL present (full access)",
      Ace := none, Access := mappedAccess }
  else
    let isOwner := token.UserSID.toString == securityDescriptor.Owner.toString
    let ownerRights := AccessMaskReadControl ||| AccessMaskWriteDACL
    if isOwner && (andNot32 mappedAccess ownerRights == 0) then
      { Granted := true, Reason := "Access granted to owner",
        Ace := none, Access := mappedAccess &&& ownerRights }
    else
      match denyPass token options mappedAccess securityDescriptor.DACL.Aces 0 0 with
      | Sum.inl iace =>
        { Granted := false,
          Reason := "Access explicitly denied by ACE " ++ Nat.repr iace.1,
          Ace := some iace.2, Access := 0 }
      | Sum.inr deniedAccess =>
        let grantedAccess :=
          allowPass token options mappedAccess deniedAccess
            securityDescriptor.DACL.Aces 0
        let remainingAccess := andNot32 mappedAccess (grantedAccess ||| deniedAccess)
        if remainingAccess == 0 && grantedAccess == mappedAccess then
          { Granted := true, Reason := "Access granted by ACL",
            Ace := none, Access := grantedAccess }
        else
          { Granted := false,
            Reason :=
              if deniedAccess != 0 then "Some requested access was explicitly denied"
              else "Some requested access was not granted by any ACE",
            Ace := none, Access := grantedAccess }

/-- Test helper `NewAccessAllowedACE` from the engine's test file. -/
def NewAccessAllowedACE (sid : SID) (value : Nat) : ACE :=
  { Header := { AceType := AceTypeAccessAllowed, Flags := 0,
                Size := 8 + (8 + 4 * sid.NumAuthorities) }
    AccessMask := { Value := value }
    ObjectAce := ObjectAce.basic { SecurityIdentifier := sid } }

/-- Test helper `NewAccessDeniedACE` from the engine's test file. -/
def NewAccessDeniedACE (sid : SID) (value : Nat) : ACE :=
  { Header := { AceType := AceTypeAccessDenied, Flags := 0,
                Size := 8 + (8 + 4 * sid.NumAuthorities) }
    AccessMask := { Value := value }
    ObjectAce := ObjectAce.basic { SecurityIdentifier := sid } }

example : (SID.mk 1 1 [0, 0, 0, 0, 0, 5] [18]).toString = "S-1-5-18" := by decide

example :
    MapGenericAccess AccessMaskGenericWrite DefaultAccessCheckOptions.GenericMapping =
      AccessMaskWriteDACL ||| AccessMaskWriteOwner := by decide

/-- Little-endian 16-bit value from the first two bytes of a list. -/
def u16le (b : List Nat) : Nat := b.getD 0 0 + 0x100 * b.getD 1 0

/-- Little-endian 32-bit value from the first four bytes of a list. -/
def u32le (b : List Nat) : Nat :=
  b.getD 0 0 + 0x100 * b.getD 1 0 + 0x10000 * b.getD 2 0 + 0x1000000 * b.getD 3 0

/-- Structured decode errors; Go wraps errors with `fmt.Errorf(... %w)`,
modelled by the wrapper constructors. -/
inductive DecodeErr where
  | ioShort : DecodeErr
  | sidInvalid (msg : String) : DecodeErr
  | aceUnknownType (t : Nat) : DecodeErr
  | aceSidSizeInvalid (sz : Int) : DecodeErr
  | advAceSidSizeInvalid (sz : Int) : DecodeErr
  | wrapAceHeaderRead (e : DecodeErr) : DecodeErr
  | wrapAceMaskRead (e : DecodeErr) : DecodeErr
  | wrapAceFlagsRead (e : DecodeErr) : DecodeErr
  | wrapBasicAce (e : DecodeErr) : DecodeErr
  | wrapAdvancedAce (e : DecodeErr) : DecodeErr
  | wrapBasicAceSid (e : DecodeErr) : DecodeErr
  | wrapAdvancedAceSid (e : DecodeErr) : DecodeErr
  | wrapNtsdHeader (e : DecodeErr) : DecodeErr
  | wrapAclHeader (e : DecodeErr) : DecodeErr
  | wrapAce (i : Nat) (e : DecodeErr) : DecodeErr
  | wrapDacl (e : DecodeErr) : DecodeErr
  | wrapOwner (e : DecodeErr) : DecodeErr
  | wrapGroup (e : DecodeErr) : DecodeErr
deriving DecidableEq

/-- `NewSID` of `sid.go`: `buf.Next(sidLength)` takes at most `sidLength`
bytes (consumed even on failure); then the revision, sub-authority count
and length validations of the source, in order. -/
def NewSID (buf : List Nat) (sidLength : Nat) : Except DecodeErr (SID × List Nat) :=
  let data := buf.take sidLength
  let rest := buf.drop sidLength
  if data.length < 8 then Except.error (DecodeErr.sidInvalid "SID data too short")
  else if data.getD 0 0 != 1 then Except.error (DecodeErr.sidInvalid "invalid SID revision")
  else
    let numAuth := data.getD 1 0
    if numAuth > 15 then Except.error (DecodeErr.sidInvalid "invalid number of subauthorities")
    else if data.length < 8 + numAuth * 4 then
      Except.error (DecodeErr.sidInvalid "SID data too short for subauthorities")
    else
      Except.ok
        ({ Revision := data.getD 0 0
           NumAuthorities := numAuth
           Authority := (data.drop 2).take 6
           SubAuthorities :=
             (List.range numAuth).map (fun i => u32le ((data.drop (8 + i * 4)).take 4)) },
         rest)

/-- `NewGUID` of `pkg/guid.go`: four little-endian fields read in order;
`binary.Read` failures are ignored, leaving the zero value for a field the
buffer cannot fill (the source returns no error). -/
def NewGUID (buf : List Nat) : GUID × List Nat :=
  let d1 := if 4 ≤ buf.length then u32le buf else 0
  let b1 := buf.drop 4
  let d2 := if 2 ≤ b1.length then u16le b1 else 0
  let b2 := b1.drop 2
  let d3 := if 2 ≤ b2.length then u16le b2 else 0
  let b3 := b2.drop 2
  let d4 := if 8 ≤ b3.length then b3.take 8 else List.replicate 8 0
  ({ Data1 := d1, Data2 := d2, Data3 := d3, Data4 := d4 }, b3.drop 8)

/-- `NewACLHeader` of the ACL codec: one `binary.Read` of the 8-byte
little-endian header, failing on a short buffer. -/
def NewACLHeader (buf : List Nat) : Except DecodeErr (ACLHeader × List Nat) :=
  if buf.length < 8 then Except.error DecodeErr.ioShort
  else
    Except.ok
      ({ Revision := buf.getD 0 0, Sbz1 := buf.getD 1 0,
         Size := u16le (buf.drop 2), AceCount := u16le (buf.drop 4),
         Sbz2 := u16le (buf.drop 6) }, buf.drop 8)

/-- `NewACEHeader` of the ACE decoder source (present in the provided
sources, concatenated alongside the README): one `binary.Read` of the
4-byte little-endian header (type tag, flags, 16-bit size), wrapping a
read failure as "reading ACE header". -/
def NewACEHeader (buf : List Nat) : Except DecodeErr (ACEHeader × List Nat) :=
  if buf.length < 4 then Except.error (DecodeErr.wrapAceHeaderRead DecodeErr.ioShort)
  else
    Except.ok
      ({ AceType := buf.getD 0 0, Flags := buf.getD 1 0, Size := u16le (buf.drop 2) },
       buf.drop 4)

/-- The case list of the basic-body arm of `NewAce`'s dispatch switch, as
in the ACE decoder source: the eight non-object type tags. -/
def basicAceTypes : List Nat :=
  [AceTypeAccessAllowed, AceTypeAccessDenied, AceTypeSystemAudit,
   AceTypeSystemAlarm, AceTypeAccessAllowedCallback, AceTypeAccessDeniedCallback,
   AceTypeSystemAuditCallback, AceTypeSystemAlarmCallback]

/-- The case list of the advanced-body arm of `NewAce`'s dispatch switch,
as in the ACE decoder source: the eight object type tags. -/
def objectAceTypes : List Nat :=
  [AceTypeAccessAllowedObject, AceTypeAccessDeniedObject, AceTypeSystemAuditObject,
   AceTypeSystemAlarmObject, AceTypeAccessAllowedCallbackObject,
   AceTypeAccessDeniedCallbackObject, AceTypeSystemAuditCallbackObject,
   AceTypeSystemAlarmCallbackObject]

/-- `NewBasicAce` of the ACE decoder source: the trailing SID occupies
`totalSize − 8` bytes (header and mask are 4 bytes each, subtracted in
`int` arithmetic, hence the `Int` size in the error); a non-positive
computed size fails, and a SID failure is wrapped as "parsing SID in
basic ACE". -/
def NewBasicAce (buf : List Nat) (totalSize : Nat) : Except DecodeErr (BasicAce × List Nat) :=
  let sidSize : Int := (totalSize : Int) - 8
  if sidSize ≤ 0 then Except.error (DecodeErr.aceSidSizeInvalid sidSize)
  else
    match NewSID buf sidSize.toNat with
    | Except.error e => Except.error (DecodeErr.wrapBasicAceSid e)
    | Except.ok (sid, rest) => Except.ok ({ SecurityIdentifier := sid }, rest)

/-- `NewAdvancedAce` of the ACE decoder source: read the 32-bit
inheritance flags (wrapping a read failure), then the flag-gated object
and inherited-object GUIDs while tracking the byte offset (the source
checks an error from `NewGUID`, but the `NewGUID` of `pkg/guid.go`
returns none, so that branch cannot fire; a field not present keeps its
zero value), then the trailing SID sized from the remainder of
`totalSize`; a non-positive computed size fails, and a SID failure is
wrapped as "parsing SID in advanced ACE". -/
def NewAdvancedAce (buf : List Nat) (totalSize : Nat) :
    Except DecodeErr (AdvancedAce × List Nat) :=
  if buf.length < 4 then Except.error (DecodeErr.wrapAceFlagsRead DecodeErr.ioShort)
  else
    let flags := u32le buf
    let buf1 := buf.drop 4
    let offset0 := 12
    let (objectType, buf2, offset1) :=
      if flags &&& ACEInheritanceFlagsObjectTypePresent != 0 then
        let (g, b) := NewGUID buf1
        (g, b, offset0 + 16)
      else ((NewGUID []).1, buf1, offset0)
    let (inheritedObjectType, buf3, offset2) :=
      if flags &&& ACEInheritanceFlagsInheritedObjectTypePresent != 0 then
        let (g, b) := NewGUID buf2
        (g, b, offset1 + 16)
      else ((NewGUID []).1, buf2, offset1)
    let sidSize : Int := (totalSize : Int) - (offset2 : Int)
    if sidSize ≤ 0 then Except.error (DecodeErr.advAceSidSizeInvalid sidSize)
    else
      match NewSID buf3 sidSize.toNat with
      | Except.error e => Except.error (DecodeErr.wrapAdvancedAceSid e)
      | Except.ok (sid, rest) =>
        Except.ok
          ({ Flags := flags, ObjectType := objectType,
             InheritedObjectType := inheritedObjectType,
             SecurityIdentifier := sid }, rest)

/-- `NewAce` of the ACE decoder source: decode the header (wrapping its
error again as "reading ACE header"), then the 4-byte access mask
(wrapping a short read as "reading ACE access mask"), then dispatch on
the type tag: the eight basic tags decode a `BasicAce` (failures wrapped
as "parsing basic ACE"), the eight object tags an `AdvancedAce`
(failures wrapped as "parsing advanced ACE"), and any other tag fails as
an unknown ACE type. -/
def NewAce (buf : List Nat) : Except DecodeErr (ACE × List Nat) :=
  match NewACEHeader buf with
  | Except.error e => Except.error (DecodeErr.wrapAceHeaderRead e)
  | Except.ok (header, buf1) =>
    if buf1.length < 4 then Except.error (DecodeErr.wrapAceMaskRead DecodeErr.ioShort)
    else
      let mask : ACEAccessMask := { Value := u32le buf1 }
      let buf2 := buf1.drop 4
      if basicAceTypes.contains header.AceType then
        match NewBasicAce buf2 header.Size with
        | Except.error e => Except.error (DecodeErr.wrapBasicAce e)
        | Except.ok (oa, buf3) =>
          Except.ok
            ({ Header := header, AccessMask := mask,
               ObjectAce := ObjectAce.basic oa }, buf3)
      else if objectAceTypes.contains header.AceType then
        match NewAdvancedAce buf2 header.Size with
        | Except.error e => Except.error (DecodeErr.wrapAdvancedAce e)
        | Except.ok (oa, buf3) =>
          Except.ok
            ({ Header := header, AccessMask := mask,
               ObjectAce := ObjectAce.advanced oa }, buf3)
      else Except.error (DecodeErr.aceUnknownType header.AceType)

/-- The ACE loop of `NewACL`: decode `n` more ACEs, the next one carrying
index `i`; the first failure is wrapped with its index and aborts. -/
def readAces : Nat → Nat → List Nat → Except DecodeErr (List ACE × List Nat)
  | 0, _, buf => Except.ok ([], buf)
  | n + 1, i, buf =>
    match NewAce buf with
    | Except.error e => Except.error (DecodeErr.wrapAce i e)
    | Except.ok (ace, buf') =>
      match readAces n (i + 1) buf' with
      | Except.error e => Except.error e
      | Except.ok (aces, buf'') => Except.ok (ace :: aces, buf'')

/-- `NewACL` of the ACL codec: header, then exactly `AceCount` ACEs. -/
def NewACL (buf : List Nat) : Except DecodeErr (ACL × List Nat) :=
  match NewACLHeader buf with
  | Except.error e => Except.error (DecodeErr.wrapAclHeader e)
  | Except.ok (header, buf1) =>
    match readAces header.AceCount 0 buf1 with
    | Except.error e => Except.error e
    | Except.ok (aces, buf2) => Except.ok ({ Header := header, Aces := aces }, buf2)

/-- `NewNTSDHeader` of `ntsdheader.go`: one `binary.Read` of the 20-byte
little-endian header. -/
def NewNTSDHeader (buf : List Nat) : Except DecodeErr (NtSecurityDescriptorHeader × List Nat) :=
  if buf.length < 20 then Except.error DecodeErr.ioShort
  else
    Except.ok
      ({ Revision := buf.getD 0 0, Sbz1 := buf.getD 1 0, Control := u16le (buf.drop 2),
         OffsetOwner := u32le (buf.drop 4), OffsetGroup := u32le (buf.drop 8),
         OffsetSacl := u32le (buf.drop 12), OffsetDacl := u32le (buf.drop 16) },
       buf.drop 20)

/-- The Go zero value of `SID`. -/
def zeroSID : SID := { Revision := 0, NumAuthorities := 0, Authority := [], SubAuthorities := [] }

/-- The Go zero value of `ACL`. -/
def zeroACL : ACL :=
  { Header := { Revision := 0, Sbz1 := 0, Size := 0, AceCount := 0, Sbz2 := 0 }, Aces := [] }

/-- `NewNtSecurityDescriptor` of the descriptor codec: header, DACL from
the shared cursor, then `sidSize := OffsetGroup − OffsetOwner` (`uint32`
wrap-around subtraction); a zero delta takes owner and group from the
first DACL ACE's principal when one exists, otherwise leaves the zero
SIDs; a nonzero delta reads two trailing SIDs of that size. -/
def NewNtSecurityDescriptor (ntsdBytes : List Nat) : Except DecodeErr NtSecurityDescriptor :=
  match NewNTSDHeader ntsdBytes with
  | Except.error e => Except.error (DecodeErr.wrapNtsdHeader e)
  | Except.ok (header, buf1) =>
    match NewACL buf1 with
    | Except.error e => Except.error (DecodeErr.wrapDacl e)
    | Except.ok (dacl, buf2) =>
      let base : NtSecurityDescriptor :=
        { Header := header, DACL := dacl, SACL := zeroACL,
          Owner := zeroSID, Group := zeroSID }
      let sidSize := (header.OffsetGroup + 0x100000000 - header.OffsetOwner) % 0x100000000
      if sidSize == 0 then
        match dacl.Aces with
        | ace0 :: _ =>
          Except.ok
            { base with Owner := ace0.ObjectAce.GetPrincipal,
                        Group := ace0.ObjectAce.GetPrincipal }
        | [] => Except.ok base
      else
        match NewSID buf2 sidSize with
        | Except.error e => Except.error (DecodeErr.wrapOwner e)
        | Except.ok (owner, buf3) =>
          match NewSID buf3 sidSize with
          | Except.error e => Except.error (DecodeErr.wrapGroup e)
          | Except.ok (group, _) => Except.ok { base with Owner := owner, Group := group }

lemma nat_land_zero_right (a : Nat) : a &&& 0 = 0 :=
  Nat.eq_of_testBit_eq (fun i => by simp [Nat.testBit_land])

lemma nat_land_zero_left (a : Nat) : 0 &&& a = 0 :=
  Nat.eq_of_testBit_eq (fun i => by simp [Nat.testBit_land])

lemma land_ne_zero_right {a b : Nat} (h : a &&& b ≠ 0) : b ≠ 0 := by
  intro hb
  exact h (hb ▸ nat_land_zero_right a)

lemma land_ne_zero_left {a b : Nat} (h : a &&& b ≠ 0) : a ≠ 0 := by
  intro ha
  exact h (ha ▸ nat_land_zero_left b)

lemma lor_ne_zero_of_right {a b : Nat} (h : b ≠ 0) : a ||| b ≠ 0 := by
  intro hab
  obtain ⟨i, hi⟩ := Nat.ne_zero_implies_bit_true h
  have : (a ||| b).testBit i = true := by simp [Nat.testBit_lor, hi]
  rw [hab] at this
  simp [Nat.zero_testBit] at this

lemma testBit_compl32 (x i : Nat) :
    (compl32 x).testBit i = (decide (i < 32) && !(x.testBit i)) := by
  have h1 : (0xFFFFFFFF : Nat) = 2 ^ 32 - 1 := by norm_num
  have h2 : (0x100000000 : Nat) = 2 ^ 32 := by norm_num
  rw [compl32, mask32, h1, h2, Nat.testBit_xor, Nat.testBit_two_pow_sub_one,
    Nat.testBit_mod_two_pow]
  by_cases hi : i < 32 <;> simp [hi]

lemma testBit_high_eq_false {x i : Nat} (hx : x < 2 ^ 32) (hi : 32 ≤ i) :
    x.testBit i = false :=
  Nat.testBit_eq_false_of_lt (lt_of_lt_of_le hx (Nat.pow_le_pow_right (by norm_num) hi))

lemma andNot32_lor_self (m d : Nat) : andNot32 m (m ||| d) = 0 := by
  apply Nat.eq_of_testBit_eq
  intro i
  simp only [andNot32, Nat.testBit_land, testBit_compl32, Nat.testBit_lor, Nat.zero_testBit]
  cases hm : m.testBit i <;> simp

lemma land_eq_self_of_andNot32_eq_zero {m r : Nat} (hm : m < 2 ^ 32)
    (h : andNot32 m r = 0) : m &&& r = m := by
  apply Nat.eq_of_testBit_eq
  intro i
  have hb : (andNot32 m r).testBit i = false := by rw [h]; exact Nat.zero_testBit i
  simp only [andNot32, Nat.testBit_land, testBit_compl32] at hb
  simp only [Nat.testBit_land]
  by_cases hi : i < 32
  · simp only [decide_eq_true hi, Bool.true_and] at hb
    cases hm' : m.testBit i <;> cases hr : r.testBit i <;> simp_all
  · have : m.testBit i = false := testBit_high_eq_false hm (le_of_not_lt hi)
    simp [this]

/-- C5: the integrity-level policy evaluator `CheckAccess` grants whenever
the subject level is at least the object level; otherwise it denies
exactly when an enabled policy clause (no-write-up, no-read-up,
no-execute-up) intersects the requested rights, and grants when no
enabled clause matches. -/
theorem integrity_check_access_policy (il objectLevel policy requestedAccess : Nat) :
    (objectLevel ≤ il → CheckAccess il objectLevel policy requestedAccess = true) ∧
    (¬ objectLevel ≤ il →
      (CheckAccess il objectLevel policy requestedAccess = false ↔
        ((policy &&& PolicyNoWriteUp ≠ 0 ∧
          requestedAccess &&&
            (AccessMaskGenericWrite ||| AccessMaskWriteDACL ||| AccessMaskWriteOwner) ≠ 0) ∨
         (policy &&& PolicyNoReadUp ≠ 0 ∧
          requestedAccess &&& (AccessMaskGenericRead ||| AccessMaskReadControl) ≠ 0) ∨
         (policy &&& PolicyNoExecuteUp ≠ 0 ∧
          requestedAccess &&& AccessMaskGenericExecute ≠ 0)))) := by
  constructor
  · intro h
    simp [CheckAccess, h]
  · intro h
    simp only [CheckAccess, if_neg h]
    split_ifs with h2 h3 h4 <;>
      simp_all [Bool.and_eq_true, bne_iff_ne, ne_eq]

/-- Witness for `integrity_check_access_policy`: a Low subject with a
NoWriteUp policy requesting WRITE_DAC on a High object is denied. -/
theorem integrity_check_access_policy_witness :
    CheckAccess IntegrityLevelLow IntegrityLevelHigh PolicyNoWriteUp AccessMaskWriteDACL = false := by
  have h := (integrity_check_access_policy IntegrityLevelLow IntegrityLevelHigh
    PolicyNoWriteUp AccessMaskWriteDACL).2 (by decide)
  exact h.mpr (Or.inl (by constructor <;> decide))

/-- C3: with an empty DACL (and the integrity gate disabled or passing,
since integrity is evaluated first), `AccessCheck` grants the full mapped
request for every token and desired mask. -/
theorem empty_dacl_short_circuit (sd : NtSecurityDescriptor) (token : TokenUser)
    (desiredAccess : Nat) (optionsArg : Option AccessCheckOptions)
    (hdacl : sd.DACL.Aces = [])
    (hint : (optionsArg.getD DefaultAccessCheckOptions).CheckIntegrity = false ∨
      CheckAccess (optionsArg.getD DefaultAccessCheckOptions).SubjectIntegrity
        (optionsArg.getD DefaultAccessCheckOptions).ObjectIntegrity
        (optionsArg.getD DefaultAccessCheckOptions).IntegrityPolicy
        (MapGenericAccess desiredAccess
          (optionsArg.getD DefaultAccessCheckOptions).GenericMapping) = true) :
    (AccessCheck sd token desiredAccess optionsArg).Granted = true ∧
    (AccessCheck sd token desiredAccess optionsArg).Access =
      MapGenericAccess desiredAccess
        (optionsArg.getD DefaultAccessCheckOptions).GenericMapping := by
  unfold AccessCheck
  rcases hint with h | h <;> simp [h, hdacl]

/-- Witness for `empty_dacl_short_circuit`: a regular user requesting
GENERIC_READ of a descriptor with an empty DACL under default options. -/
theorem empty_dacl_short_circuit_witness :
    (AccessCheck
      { Header := { Revision := 0, Sbz1 := 0, Control := 0, OffsetOwner := 0,
                    OffsetGroup := 0, OffsetSacl := 0, OffsetDacl := 0 },
        DACL := zeroACL, SACL := zeroACL,
        Owner := { Revision := 1, NumAuthorities := 2, Authority := [0, 0, 0, 0, 0, 5],
                   SubAuthorities := [32, 544] },
        Group := zeroSID }
      (NewTokenUser
        { Revision := 1, NumAuthorities := 5,
          Authority := [0, 0, 0, 0, 0, 5],
          SubAuthorities := [21, 1234567890, 1234567890, 1234567890, 1001] } [])
      AccessMaskGenericRead none).Granted = true := by
  exact (empty_dacl_short_circuit
    { Header := { Revision := 0, Sbz1 := 0, Control := 0, OffsetOwner := 0,
                  OffsetGroup := 0, OffsetSacl := 0, OffsetDacl := 0 },
      DACL := zeroACL, SACL := zeroACL,
      Owner := { Revision := 1, NumAuthorities := 2, Authority := [0, 0, 0, 0, 0, 5],
                 SubAuthorities := [32, 544] },
      Group := zeroSID }
    (NewTokenUser
      { Revision := 1, NumAuthorities := 5,
        Authority := [0, 0, 0, 0, 0, 5],
        SubAuthorities := [21, 1234567890, 1234567890, 1234567890, 1001] } [])
    AccessMaskGenericRead none rfl (Or.inl rfl)).1

/-- Spec-side renderer for the dash-separated sub-authority suffix of the
canonical SID string form. -/
def canonicalSubAuthTail : List Nat → String
  | [] => ""
  | x :: xs => "-" ++ Nat.repr x ++ canonicalSubAuthTail xs

lemma canonicalSubAuthTail_append (xs : List Nat) (y : Nat) :
    canonicalSubAuthTail (xs ++ [y]) = canonicalSubAuthTail xs ++ ("-" ++ Nat.repr y) := by
  induction xs with
  | nil => simp [canonicalSubAuthTail]
  | cons a as ih => simp [canonicalSubAuthTail, ih, String.append_assoc]

lemma sid_fold_eq_tail (l : List Nat) :
    ∀ n init, n ≤ l.length →
      (List.range n).foldl (fun acc i => acc ++ "-" ++ Nat.repr (l.getD i 0)) init =
        init ++ canonicalSubAuthTail (l.take n) := by
  intro n
  induction n with
  | zero => intro init _; simp [canonicalSubAuthTail]
  | succ k ih =>
    intro init h
    have hk : k < l.length := h
    rw [List.range_succ, List.foldl_append, ih init (Nat.le_of_succ_le h)]
    have htake : l.take (k + 1) = l.take k ++ [l.getD k 0] := by
      rw [List.take_succ, List.getElem?_eq_getElem hk, List.getD_eq_getElem l 0 hk]
      rfl
    rw [htake, canonicalSubAuthTail_append]
    simp [String.append_assoc]

/-- C8 counterexample: a SID whose authority slice is 7 bytes long (not
exactly 6) still renders to its canonical non-empty form, because the
source only guards `len(Authority) < 6`. -/
theorem sid_string_seven_byte_authority :
    (SID.mk 1 1 [0, 0, 0, 0, 0, 5, 0] [18]).Authority.length ≠ 6 ∧
    (SID.mk 1 1 [0, 0, 0, 0, 0, 5, 0] [18]).toString = "S-1-5-18" := by
  constructor <;> decide

/-- C8 (amended): `SID.toString` returns the empty string exactly when the
authority slice is shorter than 6 bytes; with 6 or more bytes it returns
the canonical `S-<revision>-<Authority[5]>` form followed by exactly
`NumAuthorities` dash-separated sub-authority components (for well-formed
SIDs, whose sub-authority slice is long enough for the Go indexing). -/
theorem sid_string_guard (s : SID) (hwf : s.NumAuthorities ≤ s.SubAuthorities.length) :
    (s.Authority.length < 6 → s.toString = "") ∧
    (6 ≤ s.Authority.length →
      s.toString =
        "S-" ++ Nat.repr s.Revision ++ "-" ++ Nat.repr (s.Authority.getD 5 0) ++
          canonicalSubAuthTail (s.SubAuthorities.take s.NumAuthorities)) := by
  constructor
  · intro h
    simp [SID.toString, h]
  · intro h
    rw [SID.toString, if_neg (by omega)]
    rw [sid_fold_eq_tail s.SubAuthorities s.NumAuthorities _ hwf]

/-- Witness for `sid_string_guard`: the canonical rendering of the
Local System SID `S-1-5-18` and the empty rendering of the zero SID. -/
theorem sid_string_guard_witness :
    (SID.mk 1 1 [0, 0, 0, 0, 0, 5] [18]).toString =
        "S-" ++ Nat.repr 1 ++ "-" ++ Nat.repr 5 ++ canonicalSubAuthTail [18] ∧
    zeroSID.toString = "" := by
  constructor
  · exact (sid_string_guard (SID.mk 1 1 [0, 0, 0, 0, 0, 5] [18]) (by decide)).2 (by decide)
  · exact (sid_string_guard zeroSID (by decide)).1 (by decide)

/-- C10: when the descriptor header's group offset equals its owner offset
(zero delta) and the decoded DACL has no ACEs, `NewNtSecurityDescriptor`
succeeds, leaving `Owner` and `Group` as the zero-valued SID, whose
canonical string is empty. -/
theorem ntsd_degenerate_empty_dacl (bytes : List Nat)
    (hd : NtSecurityDescriptorHeader) (r1 : List Nat) (acl : ACL) (r2 : List Nat)
    (hhdr : NewNTSDHeader bytes = Except.ok (hd, r1))
    (hoff : hd.OffsetGroup = hd.OffsetOwner)
    (hacl : NewACL r1 = Except.ok (acl, r2))
    (haces : acl.Aces = []) :
    NewNtSecurityDescriptor bytes =
      Except.ok { Header := hd, DACL := acl, SACL := zeroACL,
                  Owner := zeroSID, Group := zeroSID } ∧
    zeroSID.toString = "" := by
  constructor
  · have hz : (hd.OffsetOwner + 0x100000000 - hd.OffsetOwner) % 0x100000000 = 0 := by omega
    unfold NewNtSecurityDescriptor
    simp [hhdr, hacl, hoff, haces, hz]
  · decide

/-- Witness for `ntsd_degenerate_empty_dacl`: a 28-byte descriptor whose
header has all offsets zero followed by an ACL header declaring zero ACEs. -/
theorem ntsd_degenerate_empty_dacl_witness :
    NewNtSecurityDescriptor (List.replicate 20 0 ++ [2, 0, 8, 0, 0, 0, 0, 0]) =
      Except.ok
        { Header := { Revision := 0, Sbz1 := 0, Control := 0, OffsetOwner := 0,
                      OffsetGroup := 0, OffsetSacl := 0, OffsetDacl := 0 },
          DACL := { Header := { Revision := 2, Sbz1 := 0, Size := 8, AceCount := 0, Sbz2 := 0 },
                    Aces := [] },
          SACL := zeroACL, Owner := zeroSID, Group := zeroSID } := by
  exact (ntsd_degenerate_empty_dacl (List.replicate 20 0 ++ [2, 0, 8, 0, 0, 0, 0, 0])
    { Revision := 0, Sbz1 := 0, Control := 0, OffsetOwner := 0,
      OffsetGroup := 0, OffsetSacl := 0, OffsetDacl := 0 }
    [2, 0, 8, 0, 0, 0, 0, 0]
    { Header := { Revision := 2, Sbz1 := 0, Size := 8, AceCount := 0, Sbz2 := 0 }, Aces := [] }
    [] (by rfl) rfl (by rfl) rfl).1

/-- The Everyone SID `S-1-1-0`. -/
def everyoneSID : SID :=
  { Revision := 1, NumAuthorities := 1, Authority := [0, 0, 0, 0, 0, 1], SubAuthorities := [0] }

lemma aceApplies_everyone (ace : ACE) (token : TokenUser) (opts : AccessCheckOptions)
    (h : ace.ObjectAce = ObjectAce.basic { SecurityIdentifier := everyoneSID }) :
    (aceAppliesToToken ace token opts).1 = true := by
  have he : everyoneSID.toString = "S-1-1-0" := by decide
  simp [aceAppliesToToken, h, he]

lemma aceApplies_user (ace : ACE) (token : TokenUser) (opts : AccessCheckOptions)
    (h : ace.ObjectAce = ObjectAce.basic { SecurityIdentifier := token.UserSID }) :
    (aceAppliesToToken ace token opts).1 = true := by
  simp only [aceAppliesToToken, h]
  cases hb : (token.UserSID.toString == "S-1-1-0") <;> simp [hb]


lemma denyPass_nil (t : TokenUser) (o : AccessCheckOptions) (m i d : Nat) :
    denyPass t o m [] i d = Sum.inr d := rfl

lemma denyPass_cons_skip (t : TokenUser) (o : AccessCheckOptions)
    (m : Nat) (ace : ACE) (rest : List ACE) (i d : Nat)
    (h : (ace.Header.AceType != AceTypeAccessDenied) = true) :
    denyPass t o m (ace :: rest) i d = denyPass t o m rest (i + 1) d := by
  simp [denyPass, h]

lemma denyPass_cons_notApplies (t : TokenUser) (o : AccessCheckOptions)
    (m : Nat) (ace : ACE) (rest : List ACE) (i d : Nat)
    (h1 : (ace.Header.AceType != AceTypeAccessDenied) = false)
    (h2 : (aceAppliesToToken ace t o).1 = false) :
    denyPass t o m (ace :: rest) i d = denyPass t o m rest (i + 1) d := by
  simp [denyPass, h1, h2]

lemma denyPass_cons_noOverlap (t : TokenUser) (o : AccessCheckOptions)
    (m : Nat) (ace : ACE) (rest : List ACE) (i d : Nat)
    (h1 : (ace.Header.AceType != AceTypeAccessDenied) = false)
    (h2 : (aceAppliesToToken ace t o).1 = true)
    (h3 : (MapGenericAccess ace.AccessMask.Raw o.GenericMapping &&& m != 0) = false) :
    denyPass t o m (ace :: rest) i d = denyPass t o m rest (i + 1) d := by
  simp [denyPass, h1, h2, h3]

lemma denyPass_cons_fullDeny (t : TokenUser) (o : AccessCheckOptions)
    (m : Nat) (ace : ACE) (rest : List ACE) (i d : Nat)
    (h1 : (ace.Header.AceType != AceTypeAccessDenied) = false)
    (h2 : (aceAppliesToToken ace t o).1 = true)
    (h3 : (MapGenericAccess ace.AccessMask.Raw o.GenericMapping &&& m != 0) = true)
    (h4 : ((d ||| (MapGenericAccess ace.AccessMask.Raw o.GenericMapping &&& m)) == m) = true) :
    denyPass t o m (ace :: rest) i d = Sum.inl (i, ace) := by
  simp [denyPass, h1, h2, h3, h4]

lemma allowPass_nil (t : TokenUser) (o : AccessCheckOptions) (m d g : Nat) :
    allowPass t o m d [] g = g := rfl

lemma allowPass_cons_skip (t : TokenUser) (o : AccessCheckOptions)
    (m d : Nat) (ace : ACE) (rest : List ACE) (g : Nat)
    (h : (ace.Header.AceType != AceTypeAccessAllowed) = true) :
    allowPass t o m d (ace :: rest) g = allowPass t o m d rest g := by
  simp [allowPass, h]

lemma allowPass_cons_break (t : TokenUser) (o : AccessCheckOptions)
    (m d : Nat) (ace : ACE) (rest : List ACE) (g : Nat)
    (h1 : (ace.Header.AceType != AceTypeAccessAllowed) = false)
    (h2 : (aceAppliesToToken ace t o).1 = true)
    (h3 : (andNot32 (MapGenericAccess ace.AccessMask.Raw o.GenericMapping &&& m) d != 0) = true)
    (h4 : (((g ||| andNot32 (MapGenericAccess ace.AccessMask.Raw o.GenericMapping &&& m) d) ||| d)
            == m) = true) :
    allowPass t o m d (ace :: rest) g =
      g ||| andNot32 (MapGenericAccess ace.AccessMask.Raw o.GenericMapping &&& m) d := by
  simp [allowPass, h1, h2, h3, h4]

/-- The allow-ACE of the deny-precedence scenario: GENERIC_ALL granted to
the principal. -/
def c1AllowAce (p : SID) : ACE := NewAccessAllowedACE p AccessMaskGenericAll

/-- The deny-ACE of the deny-precedence scenario: GENERIC_WRITE denied to
Everyone. -/
def c1DenyAce : ACE := NewAccessDeniedACE everyoneSID AccessMaskGenericWrite

/-- A descriptor with the given DACL entries, owner and group. -/
def c1SD (aces : List ACE) (owner group : SID) : NtSecurityDescriptor :=
  { Header := { Revision := 1, Sbz1 := 0, Control := 0, OffsetOwner := 0,
                OffsetGroup := 0, OffsetSacl := 0, OffsetDacl := 0 },
    DACL := { Header := { Revision := 2, Sbz1 := 0, Size := 0, AceCount := 2, Sbz2 := 0 },
              Aces := aces },
    SACL := zeroACL, Owner := owner, Group := group }

/-- C1: deny precedence.  For every principal, owner, group and token
group list, a DACL holding (in either order) an allow-ACE granting
GENERIC_ALL to the principal and a deny-ACE denying GENERIC_WRITE to
Everyone makes `AccessCheck` (default options) deny the principal's
GENERIC_WRITE request and grant its GENERIC_READ request. -/
theorem deny_precedence (p owner group : SID) (groups : List SID) :
    ((AccessCheck (c1SD [c1AllowAce p, c1DenyAce] owner group)
        (NewTokenUser p groups) AccessMaskGenericWrite none).Granted = false ∧
     (AccessCheck (c1SD [c1DenyAce, c1AllowAce p] owner group)
        (NewTokenUser p groups) AccessMaskGenericWrite none).Granted = false) ∧
    ((AccessCheck (c1SD [c1AllowAce p, c1DenyAce] owner group)
        (NewTokenUser p groups) AccessMaskGenericRead none).Granted = true ∧
     (AccessCheck (c1SD [c1DenyAce, c1AllowAce p] owner group)
        (NewTokenUser p groups) AccessMaskGenericRead none).Granted = true) := by
  have hW : MapGenericAccess AccessMaskGenericWrite DefaultAccessCheckOptions.GenericMapping
      = 786432 := by decide
  have hR : MapGenericAccess AccessMaskGenericRead DefaultAccessCheckOptions.GenericMapping
      = 131072 := by decide
  have hciW : (DefaultAccessCheckOptions.CheckIntegrity &&
      !(CheckAccess DefaultAccessCheckOptions.SubjectIntegrity
        DefaultAccessCheckOptions.ObjectIntegrity
        DefaultAccessCheckOptions.IntegrityPolicy 786432)) = false := by decide
  have hciR : (DefaultAccessCheckOptions.CheckIntegrity &&
      !(CheckAccess DefaultAccessCheckOptions.SubjectIntegrity
        DefaultAccessCheckOptions.ObjectIntegrity
        DefaultAccessCheckOptions.IntegrityPolicy 131072)) = false := by decide
  have hogW : (andNot32 786432 (AccessMaskReadControl ||| AccessMaskWriteDACL) == 0)
      = false := by decide
  have hogR : (andNot32 131072 (AccessMaskReadControl ||| AccessMaskWriteDACL) == 0)
      = true := by decide
  have hlenAD : (([c1AllowAce p, c1DenyAce] : List ACE).length == 0) = false := rfl
  have hlenDA : (([c1DenyAce, c1AllowAce p] : List ACE).length == 0) = false := rfl
  have hdpAD : denyPass (NewTokenUser p groups) DefaultAccessCheckOptions 786432
      [c1AllowAce p, c1DenyAce] 0 0 = Sum.inl (1, c1DenyAce) := by
    rw [denyPass_cons_skip (NewTokenUser p groups) DefaultAccessCheckOptions 786432
      (c1AllowAce p) [c1DenyAce] 0 0 rfl]
    exact denyPass_cons_fullDeny (NewTokenUser p groups) DefaultAccessCheckOptions 786432
      c1DenyAce [] 1 0 rfl
      (aceApplies_everyone c1DenyAce (NewTokenUser p groups) DefaultAccessCheckOptions rfl)
      (by decide) (by decide)
  have hdpDA : denyPass (NewTokenUser p groups) DefaultAccessCheckOptions 786432
      [c1DenyAce, c1AllowAce p] 0 0 = Sum.inl (0, c1DenyAce) := by
    exact denyPass_cons_fullDeny (NewTokenUser p groups) DefaultAccessCheckOptions 786432
      c1DenyAce [c1AllowAce p] 0 0 rfl
      (aceApplies_everyone c1DenyAce (NewTokenUser p groups) DefaultAccessCheckOptions rfl)
      (by decide) (by decide)
  have hdpADr : denyPass (NewTokenUser p groups) DefaultAccessCheckOptions 131072
      [c1AllowAce p, c1DenyAce] 0 0 = Sum.inr 0 := by
    rw [denyPass_cons_skip (NewTokenUser p groups) DefaultAccessCheckOptions 131072
        (c1AllowAce p) [c1DenyAce] 0 0 rfl,
      denyPass_cons_noOverlap (NewTokenUser p groups) DefaultAccessCheckOptions 131072
        c1DenyAce [] 1 0 rfl
        (aceApplies_everyone c1DenyAce (NewTokenUser p groups) DefaultAccessCheckOptions rfl)
        (by decide)]
    rfl
  have hdpDAr : denyPass (NewTokenUser p groups) DefaultAccessCheckOptions 131072
      [c1DenyAce, c1AllowAce p] 0 0 = Sum.inr 0 := by
    rw [denyPass_cons_noOverlap (NewTokenUser p groups) DefaultAccessCheckOptions 131072
        c1DenyAce [c1AllowAce p] 0 0 rfl
        (aceApplies_everyone c1DenyAce (NewTokenUser p groups) DefaultAccessCheckOptions rfl)
        (by decide),
      denyPass_cons_skip (NewTokenUser p groups) DefaultAccessCheckOptions 131072
        (c1AllowAce p) [] 1 0 rfl]
    rfl
  have hraw : (c1AllowAce p).AccessMask.Raw = AccessMaskGenericAll := rfl
  have hmapAll : MapGenericAccess AccessMaskGenericAll DefaultAccessCheckOptions.GenericMapping
      = 4294967295 := by decide
  have hapADr : allowPass (NewTokenUser p groups) DefaultAccessCheckOptions 131072 0
      [c1AllowAce p, c1DenyAce] 0 = 131072 := by
    rw [allowPass_cons_break (NewTokenUser p groups) DefaultAccessCheckOptions 131072 0
      (c1AllowAce p) [c1DenyAce] 0 rfl
      (aceApplies_user (c1AllowAce p) (NewTokenUser p groups) DefaultAccessCheckOptions rfl)
      (by rw [hraw, hmapAll]; decide) (by rw [hraw, hmapAll]; decide)]
    rw [hraw, hmapAll]
    decide
  have hapDAr : allowPass (NewTokenUser p groups) DefaultAccessCheckOptions 131072 0
      [c1DenyAce, c1AllowAce p] 0 = 131072 := by
    rw [allowPass_cons_skip (NewTokenUser p groups) DefaultAccessCheckOptions 131072 0
        c1DenyAce [c1AllowAce p] 0 rfl,
      allowPass_cons_break (NewTokenUser p groups) DefaultAccessCheckOptions 131072 0
        (c1AllowAce p) [] 0 rfl
        (aceApplies_user (c1AllowAce p) (NewTokenUser p groups) DefaultAccessCheckOptions rfl)
        (by rw [hraw, hmapAll]; decide) (by rw [hraw, hmapAll]; decide)]
    rw [hraw, hmapAll]
    decide
  have hfinR : ((andNot32 131072 (131072 ||| 0) == 0) && (131072 == 131072)) = true := by
    decide
  refine ⟨⟨?_, ?_⟩, ?_, ?_⟩
  · simp only [AccessCheck, c1SD, Option.getD_none, hW, hciW, hlenAD, hogW,
      Bool.and_false, hdpAD]
    simp
  · simp only [AccessCheck, c1SD, Option.getD_none, hW, hciW, hlenDA, hogW,
      Bool.and_false, hdpDA]
    simp
  · simp only [AccessCheck, c1SD, Option.getD_none, hR, hciR, hlenAD, hogR,
      Bool.and_true, hdpADr, hapADr, hfinR]
    simp [apply_ite]
  · simp only [AccessCheck, c1SD, Option.getD_none, hR, hciR, hlenDA, hogR,
      Bool.and_true, hdpDAr, hapDAr, hfinR]
    simp [apply_ite]

lemma checkAccess_zero (il ol pol : Nat) : CheckAccess il ol pol 0 = true := by
  simp [CheckAccess, nat_land_zero_left]

lemma denyPass_m_zero (t : TokenUser) (o : AccessCheckOptions) :
    ∀ (l : List ACE) (i d : Nat), denyPass t o 0 l i d = Sum.inr d := by
  intro l
  induction l with
  | nil => intro i d; rfl
  | cons ace rest ih => intro i d; simp [denyPass, nat_land_zero_right, ih]

/-- The custom generic mapping used by the partial-grant scenario (the
mapping of the engine's own test file): GR to READ_CONTROL, GW to
WRITE_DAC, GX to SYNCHRONIZE, GA to all bits. -/
def c2Opts : AccessCheckOptions :=
  { IgnoreObjectType := true, CheckIntegrity := false, IntegrityPolicy := PolicyNoWriteUp,
    SubjectIntegrity := 0, ObjectIntegrity := 0,
    GenericMapping := some
      [(AccessMaskGenericRead, AccessMaskReadControl),
       (AccessMaskGenericWrite, AccessMaskWriteDACL),
       (AccessMaskGenericExecute, AccessMaskSynchronize),
       (AccessMaskGenericAll, 0xFFFFFFFF)] }

/-- The BUILTIN Administrators SID `S-1-5-32-544`. -/
def adminSID : SID :=
  { Revision := 1, NumAuthorities := 2, Authority := [0, 0, 0, 0, 0, 5],
    SubAuthorities := [32, 544] }

/-- A regular-user SID. -/
def userSID : SID :=
  { Revision := 1, NumAuthorities := 5, Authority := [0, 0, 0, 0, 0, 5],
    SubAuthorities := [21, 1234567890, 1234567890, 1234567890, 1001] }

/-- C2: the final decision rule of `AccessCheck`.  First conjunct: for
every descriptor, token, desired mask and options (with the mapped request
in `uint32` range), the check grants exactly when the reported `Access`
equals the whole mapped request.  Second and third conjuncts: requesting
GENERIC_READ|GENERIC_WRITE when only the READ-mapped bits are allowed
yields a denial whose `Access` is exactly the READ-mapped bits, with the
never-matched reason; adding a deny ACE on GENERIC_WRITE yields the same
partial `Access` with the explicitly-denied reason. -/
theorem access_check_grant_iff :
    (∀ (sd : NtSecurityDescriptor) (token : TokenUser) (desired : Nat)
        (optsArg : Option AccessCheckOptions),
      MapGenericAccess desired (optsArg.getD DefaultAccessCheckOptions).GenericMapping
          < 2 ^ 32 →
      ((AccessCheck sd token desired optsArg).Granted = true ↔
        (AccessCheck sd token desired optsArg).Access =
          MapGenericAccess desired (optsArg.getD DefaultAccessCheckOptions).GenericMapping)) ∧
    AccessCheck (c1SD [NewAccessAllowedACE everyoneSID
        (AccessMaskGenericRead ||| AccessMaskReadControl)] adminSID adminSID)
      (NewTokenUser userSID [everyoneSID])
      (AccessMaskGenericRead ||| AccessMaskGenericWrite) (some c2Opts) =
      { Granted := false, Reason := "Some requested access was not granted by any ACE",
        Ace := none, Access := AccessMaskReadControl } ∧
    AccessCheck (c1SD [NewAccessDeniedACE everyoneSID AccessMaskGenericWrite,
        NewAccessAllowedACE everyoneSID AccessMaskGenericRead] adminSID adminSID)
      (NewTokenUser userSID [everyoneSID])
      (AccessMaskGenericRead ||| AccessMaskGenericWrite) (some c2Opts) =
      { Granted := false, Reason := "Some requested access was explicitly denied",
        Ace := none, Access := AccessMaskReadControl } := by
  refine ⟨?_, by decide, by decide⟩
  intro sd token desired optsArg hlt
  simp only [AccessCheck]
  split
  · rename_i h1
    refine iff_of_false (by simp) ?_
    intro hz
    have hm0 : MapGenericAccess desired (optsArg.getD DefaultAccessCheckOptions).GenericMapping
        = 0 := by simpa using hz.symm
    rw [hm0, checkAccess_zero] at h1
    simp at h1
  · split
    · simp
    · split
      · rename_i h3
        simp only [Bool.and_eq_true] at h3
        have h3b := h3.2
        have hsub : andNot32
            (MapGenericAccess desired (optsArg.getD DefaultAccessCheckOptions).GenericMapping)
            (AccessMaskReadControl ||| AccessMaskWriteDACL) = 0 := by
          simpa using h3b
        have := land_eq_self_of_andNot32_eq_zero hlt hsub
        simpa using this
      · split
        · rename_i iace heq
          refine iff_of_false (by simp) ?_
          intro hz
          have hm0 : MapGenericAccess desired
              (optsArg.getD DefaultAccessCheckOptions).GenericMapping = 0 := by
            simpa using hz.symm
          rw [hm0, denyPass_m_zero] at heq
          cases heq
        · rename_i denied heq
          split
          · rename_i h5
            simp only [Bool.and_eq_true] at h5
            have := eq_of_beq h5.2
            simp [this]
          · rename_i h5
            refine iff_of_false (by simp) ?_
            intro hz
            have hg : allowPass token (optsArg.getD DefaultAccessCheckOptions)
                (MapGenericAccess desired (optsArg.getD DefaultAccessCheckOptions).GenericMapping)
                denied sd.DACL.Aces 0 =
                MapGenericAccess desired (optsArg.getD DefaultAccessCheckOptions).GenericMapping :=
              by simpa using hz
            apply h5
            rw [hg, andNot32_lor_self]
            simp

/-- Witness for `access_check_grant_iff`: the partial-grant scenario
instantiates the universal grant-iff conjunct. -/
theorem access_check_grant_iff_witness :
    (AccessCheck (c1SD [NewAccessAllowedACE everyoneSID
        (AccessMaskGenericRead ||| AccessMaskReadControl)] adminSID adminSID)
      (NewTokenUser userSID [everyoneSID])
      (AccessMaskGenericRead ||| AccessMaskGenericWrite) (some c2Opts)).Granted = true ↔
    (AccessCheck (c1SD [NewAccessAllowedACE everyoneSID
        (AccessMaskGenericRead ||| AccessMaskReadControl)] adminSID adminSID)
      (NewTokenUser userSID [everyoneSID])
      (AccessMaskGenericRead ||| AccessMaskGenericWrite) (some c2Opts)).Access =
      MapGenericAccess (AccessMaskGenericRead ||| AccessMaskGenericWrite)
        ((some c2Opts).getD DefaultAccessCheckOptions).GenericMapping :=
  access_check_grant_iff.1
    (c1SD [NewAccessAllowedACE everyoneSID
      (AccessMaskGenericRead ||| AccessMaskReadControl)] adminSID adminSID)
    (NewTokenUser userSID [everyoneSID])
    (AccessMaskGenericRead ||| AccessMaskGenericWrite) (some c2Opts) (by decide)

/-- Options enabling the integrity gate with a Low subject and a High
object under a no-write-up policy. -/
def c4Opts : AccessCheckOptions :=
  { IgnoreObjectType := true, CheckIntegrity := true, IntegrityPolicy := PolicyNoWriteUp,
    SubjectIntegrity := IntegrityLevelLow, ObjectIntegrity := IntegrityLevelHigh,
    GenericMapping := DefaultAccessCheckOptions.GenericMapping }

/-- C4 counterexample: a token that IS the owner (canonical-string
equality holds) requesting WRITE_DAC only (a subset of the implicit owner
rights) is still denied when the integrity gate - which runs before the
owner check - denies; so the owner short-circuit does not hold for all
options. -/
theorem owner_rights_integrity_counterexample :
    (NewTokenUser adminSID []).UserSID.toString =
      (c1SD [] adminSID adminSID).Owner.toString ∧
    andNot32 (MapGenericAccess AccessMaskWriteDACL c4Opts.GenericMapping)
      (AccessMaskReadControl ||| AccessMaskWriteDACL) = 0 ∧
    (AccessCheck (c1SD [] adminSID adminSID) (NewTokenUser adminSID [])
      AccessMaskWriteDACL (some c4Opts)).Granted = false := by
  refine ⟨rfl, by decide, by decide⟩

/-- C4 (amended): provided the integrity gate is disabled or passes,
whenever the token's user SID equals the descriptor's owner SID by
canonical-string равenство and the mapped request has no bits outside
READ_CONTROL|WRITE_DAC, `AccessCheck` grants with `Access` equal to the
request restricted to READ_CONTROL|WRITE_DAC (before any ACE is
consulted; with an empty DACL the empty-DACL branch grants the same
value). -/
theorem owner_implicit_rights (sd : NtSecurityDescriptor) (token : TokenUser)
    (desired : Nat) (optsArg : Option AccessCheckOptions)
    (hint : (optsArg.getD DefaultAccessCheckOptions).CheckIntegrity = false ∨
      CheckAccess (optsArg.getD DefaultAccessCheckOptions).SubjectIntegrity
        (optsArg.getD DefaultAccessCheckOptions).ObjectIntegrity
        (optsArg.getD DefaultAccessCheckOptions).IntegrityPolicy
        (MapGenericAccess desired
          (optsArg.getD DefaultAccessCheckOptions).GenericMapping) = true)
    (howner : token.UserSID.toString = sd.Owner.toString)
    (hsub : andNot32
      (MapGenericAccess desired (optsArg.getD DefaultAccessCheckOptions).GenericMapping)
      (AccessMaskReadControl ||| AccessMaskWriteDACL) = 0)
    (hlt : MapGenericAccess desired (optsArg.getD DefaultAccessCheckOptions).GenericMapping
      < 2 ^ 32) :
    (AccessCheck sd token desired optsArg).Granted = true ∧
    (AccessCheck sd token desired optsArg).Access =
      MapGenericAccess desired (optsArg.getD DefaultAccessCheckOptions).GenericMapping &&&
        (AccessMaskReadControl ||| AccessMaskWriteDACL) := by
  have hci : ((optsArg.getD DefaultAccessCheckOptions).CheckIntegrity &&
      !(CheckAccess (optsArg.getD DefaultAccessCheckOptions).SubjectIntegrity
        (optsArg.getD DefaultAccessCheckOptions).ObjectIntegrity
        (optsArg.getD DefaultAccessCheckOptions).IntegrityPolicy
        (MapGenericAccess desired
          (optsArg.getD DefaultAccessCheckOptions).GenericMapping))) = false := by
    rcases hint with h | h <;> simp [h]
  have hguard : ((token.UserSID.toString == sd.Owner.toString) &&
      (andNot32
        (MapGenericAccess desired (optsArg.getD DefaultAccessCheckOptions).GenericMapping)
        (AccessMaskReadControl ||| AccessMaskWriteDACL) == 0)) = true := by
    rw [howner, hsub]
    simp
  simp only [AccessCheck, hci]
  rw [if_neg (by simp)]
  split
  · exact ⟨rfl, (land_eq_self_of_andNot32_eq_zero hlt hsub).symm⟩
  · exact ⟨rfl, rfl⟩

/-- Witness for `owner_implicit_rights`: the owner requesting only
READ_CONTROL with an otherwise-empty DACL is granted. -/
theorem owner_implicit_rights_witness :
    (AccessCheck (c1SD [] adminSID adminSID) (NewTokenUser adminSID [])
      AccessMaskReadControl none).Granted = true ∧
    (AccessCheck (c1SD [] adminSID adminSID) (NewTokenUser adminSID [])
      AccessMaskReadControl none).Access =
      MapGenericAccess AccessMaskReadControl
        ((none : Option AccessCheckOptions).getD DefaultAccessCheckOptions).GenericMapping &&&
        (AccessMaskReadControl ||| AccessMaskWriteDACL) :=
  owner_implicit_rights (c1SD [] adminSID adminSID) (NewTokenUser adminSID [])
    AccessMaskReadControl none (Or.inl rfl) rfl (by decide) (by decide)

lemma andNot32_lt (a b : Nat) : andNot32 a b < 2 ^ 32 := by
  have h1 : compl32 b < 2 ^ 32 := by
    apply Nat.xor_lt_two_pow
    · decide
    · exact Nat.mod_lt _ (by norm_num)
  exact lt_of_le_of_lt Nat.and_le_right h1

lemma andNot32_zero_of_lt {a : Nat} (h : a < 2 ^ 32) : andNot32 a 0 = a := by
  apply Nat.eq_of_testBit_eq
  intro i
  simp only [andNot32, Nat.testBit_land, testBit_compl32, Nat.zero_testBit, Bool.not_false,
    Bool.and_true]
  by_cases hi : i < 32
  · simp [hi]
  · simp [hi, testBit_high_eq_false h (le_of_not_lt hi)]

lemma andNot32_andNot32 (a g g' : Nat) :
    andNot32 (andNot32 a g) g' = andNot32 a (g ||| g') := by
  apply Nat.eq_of_testBit_eq
  intro i
  simp only [andNot32, Nat.testBit_land, testBit_compl32, Nat.testBit_lor]
  by_cases hi : i < 32 <;>
    cases ha : a.testBit i <;> cases hg : g.testBit i <;> cases hg' : g'.testBit i <;>
      simp [hi]

lemma andNot32_land_of_disjoint {g g' : Nat} (a : Nat) (hdisj : g &&& g' = 0)
    (hg' : g' < 2 ^ 32) : (andNot32 a g) &&& g' = a &&& g' := by
  apply Nat.eq_of_testBit_eq
  intro i
  simp only [Nat.testBit_land, andNot32, testBit_compl32]
  by_cases hi : i < 32
  · cases hgi : g'.testBit i
    · simp
    · cases hgb : g.testBit i
      · simp [hi, hgb]
      · exfalso
        have hb : (g &&& g').testBit i = true := by
          simp [Nat.testBit_land, hgi, hgb]
        rw [hdisj, Nat.zero_testBit] at hb
        cases hb
  · simp [testBit_high_eq_false hg' (le_of_not_lt hi)]

lemma dead_tail (x y : Nat) : (((x ||| y) == 0) && (y != 0)) = false := by
  by_cases hy : y = 0
  · subst hy
    simp
  · have hne : x ||| y ≠ 0 := lor_ne_zero_of_right hy
    simp [hne]

/-- Spec-side (refinement target for the generic-rights mapper): the bits
OR-ed into the result by the present generic bits that have a table
entry, in the spec's words. -/
def specContribList (m : List (Nat × Nat)) (acc : Nat) : List Nat → Nat
  | [] => 0
  | g :: gs => (if acc &&& g != 0 then (m.lookup g).getD 0 else 0) ||| specContribList m acc gs

/-- Spec-side (refinement target): the generic bits cleared from the
mask - the present ones that have a table entry. -/
def specClearedList (m : List (Nat × Nat)) (acc : Nat) : List Nat → Nat
  | [] => 0
  | g :: gs =>
    (if (acc &&& g != 0) && (m.lookup g).isSome then g else 0) ||| specClearedList m acc gs

/-- Spec-side closed form of the generic-rights mapper, following the
spec's words: OR of the mapped bits of each present generic bit that has
an entry, together with the input minus the cleared generic bits (which
keeps all non-generic bits and any present generic bit without an
entry). -/
def mapGenericSpec (a : Nat) (m : List (Nat × Nat)) : Nat :=
  specContribList m a
      [AccessMaskGenericRead, AccessMaskGenericWrite,
       AccessMaskGenericExecute, AccessMaskGenericAll] |||
    andNot32 a
      (specClearedList m a
        [AccessMaskGenericRead, AccessMaskGenericWrite,
         AccessMaskGenericExecute, AccessMaskGenericAll])

lemma specContribList_congr (m : List (Nat × Nat)) {acc acc' : Nat} :
    ∀ gs : List Nat, (∀ g ∈ gs, acc' &&& g = acc &&& g) →
      specContribList m acc' gs = specContribList m acc gs := by
  intro gs
  induction gs with
  | nil => intro _; rfl
  | cons g rest ih =>
    intro h
    simp only [specContribList, h g (List.mem_cons_self g rest),
      ih (fun g' hg' => h g' (List.mem_cons_of_mem g hg'))]

lemma specClearedList_congr (m : List (Nat × Nat)) {acc acc' : Nat} :
    ∀ gs : List Nat, (∀ g ∈ gs, acc' &&& g = acc &&& g) →
      specClearedList m acc' gs = specClearedList m acc gs := by
  intro gs
  induction gs with
  | nil => intro _; rfl
  | cons g rest ih =>
    intro h
    simp only [specClearedList, h g (List.mem_cons_self g rest),
      ih (fun g' hg' => h g' (List.mem_cons_of_mem g hg'))]

lemma mg_fold_char (m : List (Nat × Nat)) :
    ∀ (gs : List Nat) (r acc : Nat), acc < 2 ^ 32 →
      (∀ g ∈ gs, g < 2 ^ 32) →
      gs.Pairwise (fun g g' => g &&& g' = 0) →
      gs.foldl
        (fun (st : Nat × Nat) genericRight =>
          if st.2 &&& genericRight != 0 then
            match m.lookup genericRight with
            | some specificRights => (st.1 ||| specificRights, andNot32 st.2 genericRight)
            | none => st
          else st) (r, acc) =
        (r ||| specContribList m acc gs, andNot32 acc (specClearedList m acc gs)) := by
  intro gs
  induction gs with
  | nil =>
    intro r acc hacc _ _
    simp [specContribList, specClearedList, andNot32_zero_of_lt hacc]
  | cons g rest ih =>
    intro r acc hacc hbound hpair
    have hgbound := hbound g (List.mem_cons_self g rest)
    have hrestbound : ∀ g' ∈ rest, g' < 2 ^ 32 :=
      fun g' hg' => hbound g' (List.mem_cons_of_mem g hg')
    have hdisj : ∀ g' ∈ rest, g &&& g' = 0 := (List.pairwise_cons.mp hpair).1
    have hrestpair := (List.pairwise_cons.mp hpair).2
    have htests : ∀ g' ∈ rest, (andNot32 acc g) &&& g' = acc &&& g' :=
      fun g' hg' => andNot32_land_of_disjoint acc (hdisj g' hg') (hrestbound g' hg')
    rw [List.foldl_cons]
    by_cases hp : (acc &&& g != 0) = true
    · cases hl : m.lookup g with
      | some v =>
        simp only [hp, if_pos, hl]
        rw [ih (r ||| v) (andNot32 acc g) (andNot32_lt acc g) hrestbound hrestpair]
        rw [specContribList_congr m rest htests, specClearedList_congr m rest htests]
        simp only [Prod.mk.injEq]
        constructor
        · simp [specContribList, hp, hl, Nat.lor_assoc]
        · rw [andNot32_andNot32]
          simp [specClearedList, hp, hl]
      | none =>
        simp only [hp, if_pos, hl]
        rw [ih r acc hacc hrestbound hrestpair]
        simp only [Prod.mk.injEq]
        constructor
        · simp [specContribList, hp, hl]
        · simp [specClearedList, hp, hl]
    · have hp' : (acc &&& g != 0) = false := Bool.not_eq_true _ ▸ eq_false_of_ne_true hp
      simp only [hp']
      rw [if_neg (by simp [hp'])]
      rw [ih r acc hacc hrestbound hrestpair]
      simp only [Prod.mk.injEq]
      constructor
      · simp [specContribList, hp']
      · simp [specClearedList, hp']

/-- C6: the generic-rights mapper.  A nil mapping is the identity; for a
32-bit mask and any table, the result is exactly the union of the mapped
specific bits of each present generic bit having a table entry, with the
input mask minus those cleared generic bits (so a present generic bit
without an entry stays, and all non-generic bits are preserved). -/
theorem map_generic_access_spec :
    (∀ a : Nat, MapGenericAccess a none = a) ∧
    (∀ (a : Nat) (m : List (Nat × Nat)), a < 2 ^ 32 →
      MapGenericAccess a (some m) = mapGenericSpec a m) := by
  constructor
  · intro a
    rfl
  · intro a m hlt
    simp only [MapGenericAccess]
    rw [mg_fold_char m
      [AccessMaskGenericRead, AccessMaskGenericWrite,
       AccessMaskGenericExecute, AccessMaskGenericAll] 0 a hlt
      (by decide) (by decide)]
    simp [dead_tail, mapGenericSpec]

/-- Witness for `map_generic_access_spec`: mapping GENERIC_READ|DELETE
under a table sending GENERIC_READ to READ_CONTROL preserves DELETE and
rewrites the generic bit. -/
theorem map_generic_access_spec_witness :
    MapGenericAccess (AccessMaskGenericRead ||| AccessMaskDelete)
      (some [(AccessMaskGenericRead, AccessMaskReadControl)]) =
      mapGenericSpec (AccessMaskGenericRead ||| AccessMaskDelete)
        [(AccessMaskGenericRead, AccessMaskReadControl)] :=
  map_generic_access_spec.2 (AccessMaskGenericRead ||| AccessMaskDelete)
    [(AccessMaskGenericRead, AccessMaskReadControl)] (by decide)

/-- Projection of a deny-pass result that forgets the index and citing
ACE of an early full denial (which only feed `Reason` and `Ace`). -/
def denyOutcome : Sum (Nat × ACE) Nat → Option Nat
  | Sum.inl _ => none
  | Sum.inr d => some d

lemma denyPass_index_irrel (t : TokenUser) (o : AccessCheckOptions) (m : Nat) :
    ∀ (l : List ACE) (i j d : Nat),
      denyOutcome (denyPass t o m l i d) = denyOutcome (denyPass t o m l j d) := by
  intro l
  induction l with
  | nil => intro i j d; rfl
  | cons ace rest ih =>
    intro i j d
    by_cases h1 : (ace.Header.AceType != AceTypeAccessDenied) = true
    · rw [denyPass_cons_skip t o m ace rest i d h1, denyPass_cons_skip t o m ace rest j d h1]
      exact ih (i + 1) (j + 1) d
    · have h1f := eq_false_of_ne_true h1
      by_cases h2 : (aceAppliesToToken ace t o).1 = true
      · by_cases h3 : (MapGenericAccess ace.AccessMask.Raw o.GenericMapping &&& m != 0) = true
        · by_cases h4 : ((d ||| (MapGenericAccess ace.AccessMask.Raw o.GenericMapping &&& m))
              == m) = true
          · rw [denyPass_cons_fullDeny t o m ace rest i d h1f h2 h3 h4,
              denyPass_cons_fullDeny t o m ace rest j d h1f h2 h3 h4]
            rfl
          · have h4f := eq_false_of_ne_true h4
            simp only [denyPass, h1f, h2, h3, h4f]
            simp only [Bool.false_eq_true, if_false, if_true]
            exact ih (i + 1) (j + 1) _
        · have h3f := eq_false_of_ne_true h3
          rw [denyPass_cons_noOverlap t o m ace rest i d h1f h2 h3f,
            denyPass_cons_noOverlap t o m ace rest j d h1f h2 h3f]
          exact ih (i + 1) (j + 1) d
      · have h2f := eq_false_of_ne_true h2
        rw [denyPass_cons_notApplies t o m ace rest i d h1f h2f,
          denyPass_cons_notApplies t o m ace rest j d h1f h2f]
        exact ih (i + 1) (j + 1) d

lemma denyPass_insert (t : TokenUser) (o : AccessCheckOptions) (m : Nat) (x : ACE)
    (hx : (x.Header.AceType != AceTypeAccessDenied) = true) :
    ∀ (pre suf : List ACE) (i j d : Nat),
      denyOutcome (denyPass t o m (pre ++ x :: suf) i d) =
        denyOutcome (denyPass t o m (pre ++ suf) j d) := by
  intro pre
  induction pre with
  | nil =>
    intro suf i j d
    simp only [List.nil_append]
    rw [denyPass_cons_skip t o m x suf i d hx]
    exact denyPass_index_irrel t o m suf (i + 1) j d
  | cons a as ih =>
    intro suf i j d
    simp only [List.cons_append]
    by_cases h1 : (a.Header.AceType != AceTypeAccessDenied) = true
    · rw [denyPass_cons_skip t o m a (as ++ x :: suf) i d h1,
        denyPass_cons_skip t o m a (as ++ suf) j d h1]
      exact ih suf (i + 1) (j + 1) d
    · have h1f := eq_false_of_ne_true h1
      by_cases h2 : (aceAppliesToToken a t o).1 = true
      · by_cases h3 : (MapGenericAccess a.AccessMask.Raw o.GenericMapping &&& m != 0) = true
        · by_cases h4 : ((d ||| (MapGenericAccess a.AccessMask.Raw o.GenericMapping &&& m))
              == m) = true
          · rw [denyPass_cons_fullDeny t o m a (as ++ x :: suf) i d h1f h2 h3 h4,
              denyPass_cons_fullDeny t o m a (as ++ suf) j d h1f h2 h3 h4]
            rfl
          · have h4f := eq_false_of_ne_true h4
            simp only [denyPass, h1f, h2, h3, h4f]
            simp only [Bool.false_eq_true, if_false, if_true]
            exact ih suf (i + 1) (j + 1) _
        · have h3f := eq_false_of_ne_true h3
          rw [denyPass_cons_noOverlap t o m a (as ++ x :: suf) i d h1f h2 h3f,
            denyPass_cons_noOverlap t o m a (as ++ suf) j d h1f h2 h3f]
          exact ih suf (i + 1) (j + 1) d
      · have h2f := eq_false_of_ne_true h2
        rw [denyPass_cons_notApplies t o m a (as ++ x :: suf) i d h1f h2f,
          denyPass_cons_notApplies t o m a (as ++ suf) j d h1f h2f]
        exact ih suf (i + 1) (j + 1) d

lemma allowPass_insert (t : TokenUser) (o : AccessCheckOptions) (m d : Nat) (x : ACE)
    (hx : (x.Header.AceType != AceTypeAccessAllowed) = true) :
    ∀ (pre suf : List ACE) (g : Nat),
      allowPass t o m d (pre ++ x :: suf) g = allowPass t o m d (pre ++ suf) g := by
  intro pre
  induction pre with
  | nil =>
    intro suf g
    simp only [List.nil_append]
    rw [allowPass_cons_skip t o m d x suf g hx]
  | cons a as ih =>
    intro suf g
    simp only [List.cons_append]
    by_cases h1 : (a.Header.AceType != AceTypeAccessAllowed) = true
    · rw [allowPass_cons_skip t o m d a (as ++ x :: suf) g h1,
        allowPass_cons_skip t o m d a (as ++ suf) g h1]
      exact ih suf g
    · have h1f := eq_false_of_ne_true h1
      by_cases h2 : (aceAppliesToToken a t o).1 = true
      · by_cases h3 : (andNot32 (MapGenericAccess a.AccessMask.Raw o.GenericMapping &&& m) d
            != 0) = true
        · by_cases h4 : (((g ||| andNot32 (MapGenericAccess a.AccessMask.Raw o.GenericMapping
              &&& m) d) ||| d) == m) = true
          · rw [allowPass_cons_break t o m d a (as ++ x :: suf) g h1f h2 h3 h4,
              allowPass_cons_break t o m d a (as ++ suf) g h1f h2 h3 h4]
          · have h4f := eq_false_of_ne_true h4
            simp only [allowPass, h1f, h2, h3, h4f]
            simp only [Bool.false_eq_true, if_false, if_true]
            exact ih suf _
        · have h3f := eq_false_of_ne_true h3
          simp only [allowPass, h1f, h2, h3f]
          simp only [Bool.false_eq_true, if_false, if_true]
          exact ih suf g
      · have h2f := eq_false_of_ne_true h2
        simp only [allowPass, h1f, eq_false_of_ne_true h2]
        simp only [Bool.false_eq_true, if_false, if_true]
        exact ih suf g

/-- An access-denied-object ACE denying GENERIC_ALL to Everyone. -/
def denyObjAce : ACE :=
  { Header := { AceType := AceTypeAccessDeniedObject, Flags := 0, Size := 44 }
    AccessMask := { Value := AccessMaskGenericAll }
    ObjectAce := ObjectAce.advanced
      { Flags := 0, ObjectType := (NewGUID []).1, InheritedObjectType := (NewGUID []).1,
        SecurityIdentifier := everyoneSID } }

/-- C7 counterexample: an applicable access-denied-object ACE whose
mapped mask covers the full mapped GENERIC_WRITE request does NOT cause a
denial - the deny pass skips every header type other than the basic
access-denied tag, so the request is granted by the later allow ACE. -/
theorem deny_object_ace_ignored :
    (aceAppliesToToken denyObjAce (NewTokenUser userSID [everyoneSID])
      DefaultAccessCheckOptions).1 = true ∧
    MapGenericAccess AccessMaskGenericWrite DefaultAccessCheckOptions.GenericMapping &&&
      MapGenericAccess denyObjAce.AccessMask.Raw DefaultAccessCheckOptions.GenericMapping =
      MapGenericAccess AccessMaskGenericWrite DefaultAccessCheckOptions.GenericMapping ∧
    (AccessCheck
      (c1SD [denyObjAce, NewAccessAllowedACE everyoneSID AccessMaskGenericWrite]
        adminSID adminSID)
      (NewTokenUser userSID [everyoneSID]) AccessMaskGenericWrite none).Granted = true := by
  refine ⟨by decide, by decide, by decide⟩

/-- C7 (amended): `AccessCheck`'s deny pass considers only ACEs whose
header type is exactly the basic access-denied tag, and the allow pass
only the basic access-allowed tag; every other header type (object and
callback variants included) is skipped by both passes, so inserting such
an ACE anywhere into a DACL that keeps at least one other entry never
changes the Granted flag or the Access mask. -/
theorem object_callback_aces_skipped (hdr : NtSecurityDescriptorHeader) (aclh : ACLHeader)
    (sacl : ACL) (owner group : SID) (pre suf : List ACE) (x : ACE)
    (token : TokenUser) (desired : Nat) (optsArg : Option AccessCheckOptions)
    (hx1 : (x.Header.AceType != AceTypeAccessDenied) = true)
    (hx2 : (x.Header.AceType != AceTypeAccessAllowed) = true)
    (hne : pre ++ suf ≠ []) :
    (AccessCheck
        { Header := hdr, DACL := { Header := aclh, Aces := pre ++ x :: suf },
          SACL := sacl, Owner := owner, Group := group } token desired optsArg).Granted =
      (AccessCheck
        { Header := hdr, DACL := { Header := aclh, Aces := pre ++ suf },
          SACL := sacl, Owner := owner, Group := group } token desired optsArg).Granted ∧
    (AccessCheck
        { Header := hdr, DACL := { Header := aclh, Aces := pre ++ x :: suf },
          SACL := sacl, Owner := owner, Group := group } token desired optsArg).Access =
      (AccessCheck
        { Header := hdr, DACL := { Header := aclh, Aces := pre ++ suf },
          SACL := sacl, Owner := owner, Group := group } token desired optsArg).Access := by
  have hlen1 : ((pre ++ x :: suf).length == 0) = false := by
    cases pre <;> simp
  have hlen2 : ((pre ++ suf).length == 0) = false := by
    cases hps : pre ++ suf with
    | nil => exact absurd hps hne
    | cons a l => simp
  simp only [AccessCheck, hlen1, hlen2]
  have hinv := denyPass_insert token (optsArg.getD DefaultAccessCheckOptions)
    (MapGenericAccess desired (optsArg.getD DefaultAccessCheckOptions).GenericMapping)
    x hx1 pre suf 0 0 0
  rcases hd1 : denyPass token (optsArg.getD DefaultAccessCheckOptions)
      (MapGenericAccess desired (optsArg.getD DefaultAccessCheckOptions).GenericMapping)
      (pre ++ x :: suf) 0 0 with ia1 | d1 <;>
    rcases hd2 : denyPass token (optsArg.getD DefaultAccessCheckOptions)
      (MapGenericAccess desired (optsArg.getD DefaultAccessCheckOptions).GenericMapping)
      (pre ++ suf) 0 0 with ia2 | d2
  · simp only [hd1, hd2]
    by_cases hc1 : ((optsArg.getD DefaultAccessCheckOptions).CheckIntegrity &&
        !(CheckAccess (optsArg.getD DefaultAccessCheckOptions).SubjectIntegrity
          (optsArg.getD DefaultAccessCheckOptions).ObjectIntegrity
          (optsArg.getD DefaultAccessCheckOptions).IntegrityPolicy
          (MapGenericAccess desired
            (optsArg.getD DefaultAccessCheckOptions).GenericMapping))) = true
    · constructor <;> simp [hc1]
    · by_cases hc3 : ((token.UserSID.toString == owner.toString) &&
          (andNot32 (MapGenericAccess desired
              (optsArg.getD DefaultAccessCheckOptions).GenericMapping)
            (AccessMaskReadControl ||| AccessMaskWriteDACL) == 0)) = true
      · constructor <;> simp [hc1, hc3]
      · constructor <;> simp [hc1, hc3]
  · rw [hd1, hd2] at hinv
    cases hinv
  · rw [hd1, hd2] at hinv
    cases hinv
  · rw [hd1, hd2] at hinv
    simp only [denyOutcome, Option.some.injEq] at hinv
    subst hinv
    have hap := allowPass_insert token (optsArg.getD DefaultAccessCheckOptions)
      (MapGenericAccess desired (optsArg.getD DefaultAccessCheckOptions).GenericMapping)
      d1 x hx2 pre suf 0
    simp only [hd1, hd2, hap]
    constructor <;> trivial

/-- Witness for `object_callback_aces_skipped`: inserting the
access-denied-object ACE in front of an Everyone allow ACE leaves the
decision unchanged. -/
theorem object_callback_aces_skipped_witness :
    (AccessCheck
        (c1SD [denyObjAce, NewAccessAllowedACE everyoneSID AccessMaskGenericWrite]
          adminSID adminSID)
        (NewTokenUser userSID [everyoneSID]) AccessMaskGenericWrite none).Granted =
      (AccessCheck
        (c1SD [NewAccessAllowedACE everyoneSID AccessMaskGenericWrite] adminSID adminSID)
        (NewTokenUser userSID [everyoneSID]) AccessMaskGenericWrite none).Granted ∧
    (AccessCheck
        (c1SD [denyObjAce, NewAccessAllowedACE everyoneSID AccessMaskGenericWrite]
          adminSID adminSID)
        (NewTokenUser userSID [everyoneSID]) AccessMaskGenericWrite none).Access =
      (AccessCheck
        (c1SD [NewAccessAllowedACE everyoneSID AccessMaskGenericWrite] adminSID adminSID)
        (NewTokenUser userSID [everyoneSID]) AccessMaskGenericWrite none).Access :=
  object_callback_aces_skipped
    { Revision := 1, Sbz1 := 0, Control := 0, OffsetOwner := 0,
      OffsetGroup := 0, OffsetSacl := 0, OffsetDacl := 0 }
    { Revision := 2, Sbz1 := 0, Size := 0, AceCount := 2, Sbz2 := 0 }
    zeroACL adminSID adminSID []
    [NewAccessAllowedACE everyoneSID AccessMaskGenericWrite] denyObjAce
    (NewTokenUser userSID [everyoneSID]) AccessMaskGenericWrite none
    (by decide) (by decide) (by decide)

/-- Spec-side device for C9: decode exactly `n` ACE records in order with
no error wrapping, returning the records and the rest of the buffer. -/
def decodeFirst : Nat → List Nat → Except DecodeErr (List ACE × List Nat)
  | 0, buf => Except.ok ([], buf)
  | n + 1, buf =>
    match NewAce buf with
    | Except.error e => Except.error e
    | Except.ok (ace, buf') =>
      match decodeFirst n buf' with
      | Except.error e => Except.error e
      | Except.ok (aces, buf'') => Except.ok (ace :: aces, buf'')

lemma readAces_ok_length :
    ∀ (n i : Nat) (buf : List Nat) (aces : List ACE) (rest : List Nat),
      readAces n i buf = Except.ok (aces, rest) → aces.length = n := by
  intro n
  induction n with
  | zero =>
    intro i buf aces rest h
    simp only [readAces, Except.ok.injEq, Prod.mk.injEq] at h
    rw [← h.1]
    rfl
  | succ k ih =>
    intro i buf aces rest h
    simp only [readAces] at h
    split at h
    · cases h
    · split at h
      · cases h
      · rename_i p1 hA p2 hrec
        simp only [Except.ok.injEq, Prod.mk.injEq] at h
        rw [← h.1]
        simp only [List.length_cons]
        rw [ih (i + 1) _ _ _ hrec]

lemma readAces_error_shape :
    ∀ (n i : Nat) (buf : List Nat) (j : Nat) (e : DecodeErr),
      readAces n i buf = Except.error (DecodeErr.wrapAce j e) →
      i ≤ j ∧ j < i + n ∧
        ∃ (aces : List ACE) (s : List Nat),
          decodeFirst (j - i) buf = Except.ok (aces, s) ∧
          aces.length = j - i ∧ NewAce s = Except.error e := by
  intro n
  induction n with
  | zero =>
    intro i buf j e h
    simp [readAces] at h
  | succ k ih =>
    intro i buf j e h
    simp only [readAces] at h
    split at h
    · rename_i e0 hA
      simp only [Except.error.injEq, DecodeErr.wrapAce.injEq] at h
      obtain ⟨hij, hee⟩ := h
      subst hij
      subst hee
      exact ⟨le_refl i, by omega, [], buf, by simp [Nat.sub_self, decodeFirst], by simp, hA⟩
    · rename_i ace bufp hA
      split at h
      · rename_i e' hrec
        simp only [Except.error.injEq] at h
        subst h
        obtain ⟨h1, h2, aces, s, hdf, hlen, hfail⟩ := ih (i + 1) _ j e hrec
        refine ⟨by omega, by omega, ace :: aces, s, ?_, ?_, hfail⟩
        · have hji : j - i = (j - (i + 1)) + 1 := by omega
          rw [hji]
          simp only [decodeFirst, hA, hdf]
        · simp only [List.length_cons, hlen]
          omega
      · cases h

/-- C9: `NewACL` decodes the 8-byte header and then exactly `AceCount`
ACE records in order.  On success the decoded list's length equals the
header's declared count; when the `i`-th ACE fails, the returned error
wraps the originating ACE error with index `i`, that index is below the
declared count, the first `i` records decode cleanly (as witnessed by the
unwrapped `decodeFirst`), and the failing call returns exactly the
wrapped error - the partially decoded records are not part of the
result. -/
theorem acl_decode_faithful (input : List Nat) :
    (∀ (acl : ACL) (rest : List Nat), NewACL input = Except.ok (acl, rest) →
      acl.Aces.length = acl.Header.AceCount) ∧
    (∀ (i : Nat) (e : DecodeErr), NewACL input = Except.error (DecodeErr.wrapAce i e) →
      ∃ (h : ACLHeader) (r0 : List Nat) (aces : List ACE) (s : List Nat),
        NewACLHeader input = Except.ok (h, r0) ∧ i < h.AceCount ∧
        decodeFirst i r0 = Except.ok (aces, s) ∧ aces.length = i ∧
        NewAce s = Except.error e) := by
  constructor
  · intro acl rest hok
    simp only [NewACL] at hok
    rcases hh : NewACLHeader input with e0 | ⟨h0, r0⟩
    · simp [hh] at hok
    · simp only [hh] at hok
      rcases hra : readAces h0.AceCount 0 r0 with e' | ⟨aces, buf2⟩
      · simp [hra] at hok
      · simp only [hra, Except.ok.injEq, Prod.mk.injEq] at hok
        rw [← hok.1]
        exact readAces_ok_length _ 0 _ _ _ hra
  · intro i e herr
    simp only [NewACL] at herr
    rcases hh : NewACLHeader input with e0 | ⟨h0, r0⟩
    · simp [hh] at herr
    · simp only [hh] at herr
      rcases hra : readAces h0.AceCount 0 r0 with e' | ⟨aces, buf2⟩
      · simp only [hra, Except.error.injEq] at herr
        subst herr
        obtain ⟨-, h2, aces2, s, hdf, hlen, hfail⟩ :=
          readAces_error_shape h0.AceCount 0 r0 i e hra
        exact ⟨h0, r0, aces2, s, rfl, by omega, by simpa using hdf, by simpa using hlen, hfail⟩
      · simp [hra] at herr

/-- Witness for `acl_decode_faithful`: an ACL header declaring one ACE
followed by no bytes fails on ACE 0 with the wrapped buffer-shortage
error. -/
theorem acl_decode_faithful_witness :
    NewACL [2, 0, 16, 0, 1, 0, 0, 0] =
      Except.error (DecodeErr.wrapAce 0
        (DecodeErr.wrapAceHeaderRead (DecodeErr.wrapAceHeaderRead DecodeErr.ioShort))) ∧
    ∃ (h : ACLHeader) (r0 : List Nat) (aces : List ACE) (s : List Nat),
      NewACLHeader [2, 0, 16, 0, 1, 0, 0, 0] = Except.ok (h, r0) ∧ 0 < h.AceCount ∧
      decodeFirst 0 r0 = Except.ok (aces, s) ∧ aces.length = 0 ∧
      NewAce s = Except.error
        (DecodeErr.wrapAceHeaderRead (DecodeErr.wrapAceHeaderRead DecodeErr.ioShort)) :=
  ⟨by rfl, (acl_decode_faithful [2, 0, 16, 0, 1, 0, 0, 0]).2 0
    (DecodeErr.wrapAceHeaderRead (DecodeErr.wrapAceHeaderRead DecodeErr.ioShort)) (by rfl)⟩
